import Mathlib

/-!
Shallow embedding of xnumon's event-record serialization engine
(`src/logevt.c`) and proofs about it.

Every serializer in `logevt.c` is a straight-line sequence of calls into the
pluggable sink (`logfmt_t` function pointers writing to a `FILE *`).  The
serializers never read anything back from the sink, so each C function is
embedded as a pure Lean function producing the list of sink calls it makes,
in order.  External collaborators are made explicit:

* the process-wide `config_t *config` becomes a `Config` argument;
* the name-service lookups `getpwuid`/`getgrgid`, and the environment
  strings (`build_version`, `os_name`, ...) become a `World` argument;
* results of external helpers that are pure functions of their input
  (`codesign_result_s`, `ipaddrtoa`, `protocoltoa`, ...) are carried as
  fields of the corresponding descriptor structures.

The single `assert` on event data (`assert(!ie->script->codesign)` in
`logevt_process_image_exec`) is modelled by a separate `..._ok` function
computing whether every assertion encountered during a call holds; the
`..._run` wrappers return `none` when an assertion fires (the process
aborts and no record is delivered) and `some trace` otherwise.
-/

/-- One timestamp as used by `value_timespec` (a C `struct timespec`). -/
structure TimeSpec where
  sec : Int
  nsec : Int
deriving DecidableEq, Repr

/-- One call into the sink capability interface (`logfmt_t`).  Constructors
mirror the function pointers used by `logevt.c`. -/
inductive SinkOp where
  | record_begin
  | record_end
  | dict_begin
  | dict_end
  | dict_item (key : String)
  | list_begin
  | list_end
  | list_item (label : String)
  | value_string (s : String)
  | value_int (i : Int)
  | value_uint (n : Nat)
  | value_uint_oct (n : Nat)
  | value_bool (b : Bool)
  | value_null
  | value_timespec (tv : TimeSpec)
  | value_buf_hex (buf : List Nat) (sz : Nat)
  | value_ttydev (dev : Int)
deriving DecidableEq, Repr

/-- The dictionary key announced by an op, if it is a `dict_item` call. -/
def keyOf : SinkOp → Option String
  | SinkOp.dict_item k => some k
  | _ => none

/-- The sequence of dictionary keys announced in a trace, in order. -/
def dictKeys (tr : List SinkOp) : List String :=
  tr.filterMap keyOf

/-- `uid_t`/`gid_t` are unsigned 32-bit on macOS; `(uid_t)-1` is this value. -/
def IDNONE : Nat := 4294967295

/-- `SIZE_MAX`, the `size_t` sentinel used for an unlimited ancestor count. -/
def SIZEMAX : Nat := 18446744073709551615

/-- `LOGEVT_VERSION`, the schema version constant from `logevt.h` (the header
is outside the visible sources; no theorem depends on the value). -/
def LOGEVT_VERSION : Nat := 2

/-- `LOGEVT_SIZE`: number of event codes (the eight kinds below). -/
def LOGEVT_SIZE : Nat := 8

def MD5SZ : Nat := 16
def SHA1SZ : Nat := 20
def SHA256SZ : Nat := 32

/-- The configuration snapshot (`config_t`) as read by `logevt.c`.  String
results of pure config formatters (`config_events_s`, ...) are carried as
fields. -/
structure Config where
  path : String
  id : Option String
  launchd_mode : Bool
  debug : Bool
  events_s : String
  stats_interval : Nat
  kextlevel_s : String
  hflags_md5 : Bool
  hflags_sha1 : Bool
  hflags_sha256 : Bool
  hflags_s : String
  codesign : Bool
  envlevel_s : String
  resolve_users_groups : Bool
  omit_mode : Bool
  omit_size : Bool
  omit_mtime : Bool
  omit_ctime : Bool
  omit_btime : Bool
  omit_sid : Bool
  omit_groups : Bool
  omit_apple_hashes : Bool
  ancestors : Nat
  logdst_s : String
  logfmt_s : String
  logoneline : Int
  logfile : Option String
  limit_nofile : Nat
  suppress_image_exec_at_start : Bool
  suppress_image_exec_by_ident_sz : Nat
  suppress_image_exec_by_path_sz : Nat
  suppress_image_exec_by_ancestor_ident_sz : Nat
  suppress_image_exec_by_ancestor_path_sz : Nat
  suppress_process_access_by_subject_ident_sz : Nat
  suppress_process_access_by_subject_path_sz : Nat
  suppress_socket_op_localhost : Bool
  suppress_socket_op_by_subject_ident_sz : Nat
  suppress_socket_op_by_subject_path_sz : Nat
deriving DecidableEq, Repr

/-- The ambient environment: name-service lookups and static identity
strings, all external to the serialization core. -/
structure World where
  getpwuid : Nat → Option String
  getgrgid : Nat → Option String
  build_version : String
  build_date : String
  build_info : String
  os_name : String
  os_version : String
  os_build : String
  protocoltoa : Nat → String

/-- `logevt_uid` (logevt.c:51-70): always announce the numeric id; the
sentinel short-circuits before any lookup; otherwise resolve the name only
when configured and the lookup succeeds. -/
def logevt_uid (cfg : Config) (w : World) (uid : Nat)
    (idlabel namelabel : String) : List SinkOp :=
  SinkOp.dict_item idlabel ::
  (if uid = IDNONE then
    [SinkOp.value_int (-1)]
  else
    SinkOp.value_uint uid ::
    (if cfg.resolve_users_groups then
      match w.getpwuid uid with
      | some name => [SinkOp.dict_item namelabel, SinkOp.value_string name]
      | none => []
    else []))

/-- `logevt_gid` (logevt.c:72-91), same shape over `getgrgid`. -/
def logevt_gid (cfg : Config) (w : World) (gid : Nat)
    (idlabel namelabel : String) : List SinkOp :=
  SinkOp.dict_item idlabel ::
  (if gid = IDNONE then
    [SinkOp.value_int (-1)]
  else
    SinkOp.value_uint gid ::
    (if cfg.resolve_users_groups then
      match w.getgrgid gid with
      | some name => [SinkOp.dict_item namelabel, SinkOp.value_string name]
      | none => []
    else []))

/-- `logevt_header_t`: the envelope data present at the head of every event
descriptor. -/
structure EvtHeader where
  tv : TimeSpec
  code : Nat
deriving DecidableEq, Repr

/-- `logevt_header` (logevt.c:93-104): open the record and emit the three
envelope fields in fixed order. -/
def logevt_header (hdr : EvtHeader) : List SinkOp :=
  [SinkOp.record_begin, SinkOp.dict_begin,
   SinkOp.dict_item "version", SinkOp.value_uint LOGEVT_VERSION,
   SinkOp.dict_item "time", SinkOp.value_timespec hdr.tv,
   SinkOp.dict_item "eventcode", SinkOp.value_uint hdr.code]

/-- `logevt_footer` (logevt.c:106-110). -/
def logevt_footer : List SinkOp :=
  [SinkOp.dict_end, SinkOp.record_end]

/-- A code-signature result (`codesign_t`) as read by `logevt.c`.  The
predicates/formatters (`codesign_is_apple_system`, `codesign_is_good`,
`codesign_result_s`, `codesign_origin_s`) live outside the visible unit and
are carried as fields, being pure functions of the signature. -/
structure Codesign where
  result_s : String
  origin : Nat
  origin_s : String
  cdhash : Option (List Nat)
  cdhashsz : Nat
  ident : Option String
  teamid : Option String
  certcn : Option String
  is_apple_system : Bool
  is_good : Bool
deriving DecidableEq, Repr

/-- `codesign_is_apple_system` lifted to the nullable pointer: in C the call
is short-circuit guarded by `ie->codesign != NULL`. -/
def appleSys : Option Codesign → Bool
  | some cs => cs.is_apple_system
  | none => false

/-- An IP address (`ipaddr_t`) with its externally computed predicates:
`empty` models `ipaddr_is_empty`, `str` models `ipaddrtoa`. -/
structure IpAddr where
  empty : Bool
  str : String
deriving DecidableEq, Repr

/-- The credential part of a process (`audit_proc_t`). -/
structure AuditProc where
  pid : Int
  auid : Nat
  euid : Nat
  egid : Nat
  ruid : Nat
  rgid : Nat
  sid : Nat
  dev : Int
  addr : IpAddr
deriving DecidableEq, Repr

/-- The non-recursive fields of `image_exec_t`.  The `flags` bitfield is
split into the four bits read by `logevt.c` (`EIFLAG_STAT`, `EIFLAG_ATTR`,
`EIFLAG_HASHES`, `EIFLAG_PIDLOOKUP`). -/
structure ImageExecCore where
  hdr : EvtHeader
  pid : Int
  path : String
  flag_stat : Bool
  flag_attr : Bool
  flag_hashes : Bool
  flag_pidlookup : Bool
  stat_mode : Nat
  stat_uid : Nat
  stat_gid : Nat
  stat_size : Nat
  stat_mtime : TimeSpec
  stat_ctime : TimeSpec
  stat_btime : TimeSpec
  md5 : List Nat
  sha1 : List Nat
  sha256 : List Nat
  codesign : Option Codesign
  argv : Option (List String)
  envv : Option (List String)
  cwd : Option String
  fork_tv : TimeSpec
  subject : AuditProc
deriving DecidableEq, Repr

/-- `image_exec_t`: core fields plus the interpreter/script sub-image and
the back-reference to the previous image execution of the lineage.  The
inductive structure makes the ancestry chain finite and acyclic, matching
the data-model invariant. -/
inductive ImageExec where
  | mk (core : ImageExecCore) (script : Option ImageExec)
       (prev : Option ImageExec)

def ImageExec.core : ImageExec → ImageExecCore
  | ImageExec.mk c _ _ => c

def ImageExec.script : ImageExec → Option ImageExec
  | ImageExec.mk _ s _ => s

def ImageExec.prev : ImageExec → Option ImageExec
  | ImageExec.mk _ _ p => p

@[simp] theorem ImageExec.core_mk (c s p) : (ImageExec.mk c s p).core = c := rfl
@[simp] theorem ImageExec.script_mk (c s p) : (ImageExec.mk c s p).script = s := rfl
@[simp] theorem ImageExec.prev_mk (c s p) : (ImageExec.mk c s p).prev = p := rfl

/-- The `logevt.c:508-524` / `565-581` hash block, shared verbatim by the
two renderings: hashes are emitted only if acquired and not suppressed by
the compound platform-binary rule, one field per configured algorithm. -/
def hashesOps (cfg : Config) (ie : ImageExec) : List SinkOp :=
  if ie.core.flag_hashes &&
     (!cfg.omit_apple_hashes || ie.core.codesign.isNone ||
      !appleSys ie.core.codesign) then
    (if cfg.hflags_md5 then
      [SinkOp.dict_item "md5", SinkOp.value_buf_hex ie.core.md5 MD5SZ]
    else []) ++
    (if cfg.hflags_sha1 then
      [SinkOp.dict_item "sha1", SinkOp.value_buf_hex ie.core.sha1 SHA1SZ]
    else []) ++
    (if cfg.hflags_sha256 then
      [SinkOp.dict_item "sha256", SinkOp.value_buf_hex ie.core.sha256 SHA256SZ]
    else [])
  else []

/-- logevt.c:480-489: mode/uid/gid, present when stat or attributes were
acquired, mode and gid each behind their redaction switch. -/
def statAttrOps (cfg : Config) (w : World) (ie : ImageExec) : List SinkOp :=
  if ie.core.flag_stat || ie.core.flag_attr then
    (if !cfg.omit_mode then
      [SinkOp.dict_item "mode", SinkOp.value_uint_oct ie.core.stat_mode]
    else []) ++
    logevt_uid cfg w ie.core.stat_uid "uid" "uname" ++
    (if !cfg.omit_groups then
      logevt_gid cfg w ie.core.stat_gid "gid" "gname"
    else [])
  else []

/-- logevt.c:490-507: size and the three timestamps, present when stat was
acquired, each behind its redaction switch. -/
def statOps (cfg : Config) (ie : ImageExec) : List SinkOp :=
  if ie.core.flag_stat then
    (if !cfg.omit_size then
      [SinkOp.dict_item "size", SinkOp.value_uint ie.core.stat_size]
    else []) ++
    (if !cfg.omit_mtime then
      [SinkOp.dict_item "mtime", SinkOp.value_timespec ie.core.stat_mtime]
    else []) ++
    (if !cfg.omit_ctime then
      [SinkOp.dict_item "ctime", SinkOp.value_timespec ie.core.stat_ctime]
    else []) ++
    (if !cfg.omit_btime then
      [SinkOp.dict_item "btime", SinkOp.value_timespec ie.core.stat_btime]
    else [])
  else []

/-- logevt.c:526-550: the full signature block of the object-image
rendering. -/
def csOps (ie : ImageExec) : List SinkOp :=
  match ie.core.codesign with
  | none => []
  | some cs =>
    [SinkOp.dict_item "signature", SinkOp.value_string cs.result_s] ++
    (if cs.origin ≠ 0 then
      [SinkOp.dict_item "origin", SinkOp.value_string cs.origin_s]
    else []) ++
    (match cs.cdhash with
     | some h => [SinkOp.dict_item "cdhash", SinkOp.value_buf_hex h cs.cdhashsz]
     | none => []) ++
    (match cs.ident with
     | some s => [SinkOp.dict_item "ident", SinkOp.value_string s]
     | none => []) ++
    (match cs.teamid with
     | some s => [SinkOp.dict_item "teamid", SinkOp.value_string s]
     | none => []) ++
    (match cs.certcn with
     | some s => [SinkOp.dict_item "certcn", SinkOp.value_string s]
     | none => [])

/-- `logevt_image_exec_image` (logevt.c:475-552): the object-image
rendering of an image execution. -/
def logevt_image_exec_image (cfg : Config) (w : World) (ie : ImageExec) :
    List SinkOp :=
  SinkOp.dict_begin ::
  ([SinkOp.dict_item "path", SinkOp.value_string ie.core.path] ++
   statAttrOps cfg w ie ++
   statOps cfg ie ++
   hashesOps cfg ie ++
   csOps ie ++
   [SinkOp.dict_end])

/-- logevt.c:582-591: ident and team id, only for a positively validated
signature. -/
def pieSigOps (ie : ImageExec) : List SinkOp :=
  match ie.core.codesign with
  | none => []
  | some cs =>
    if cs.is_good then
      (match cs.ident with
       | some s => [SinkOp.dict_item "ident", SinkOp.value_string s]
       | none => []) ++
      (match cs.teamid with
       | some s => [SinkOp.dict_item "teamid", SinkOp.value_string s]
       | none => [])
    else []

/-- logevt.c:592-616: the embedded script sub-image of the process-context
rendering (path and hash set only; the `assert(!ie->script->codesign)` is
modelled by `logevt_process_image_exec_ok`). -/
def pieScriptOps (cfg : Config) (ie : ImageExec) : List SinkOp :=
  match ie.script with
  | none => []
  | some s =>
    [SinkOp.dict_item "script", SinkOp.dict_begin,
     SinkOp.dict_item "path", SinkOp.value_string s.core.path] ++
    (if s.core.flag_hashes then
      (if cfg.hflags_md5 then
        [SinkOp.dict_item "md5", SinkOp.value_buf_hex s.core.md5 MD5SZ]
      else []) ++
      (if cfg.hflags_sha1 then
        [SinkOp.dict_item "sha1", SinkOp.value_buf_hex s.core.sha1 SHA1SZ]
      else []) ++
      (if cfg.hflags_sha256 then
        [SinkOp.dict_item "sha256", SinkOp.value_buf_hex s.core.sha256 SHA256SZ]
      else [])
    else []) ++
    [SinkOp.dict_end]

/-- `logevt_process_image_exec` (logevt.c:554-618): the process-context
rendering of an image execution. -/
def logevt_process_image_exec (cfg : Config) (w : World) (ie : ImageExec) :
    List SinkOp :=
  SinkOp.dict_begin ::
  ((if !ie.core.flag_pidlookup then
     [SinkOp.dict_item "exec_time", SinkOp.value_timespec ie.core.hdr.tv]
   else []) ++
   [SinkOp.dict_item "exec_pid", SinkOp.value_int ie.core.pid,
    SinkOp.dict_item "path", SinkOp.value_string ie.core.path] ++
   hashesOps cfg ie ++
   pieSigOps ie ++
   pieScriptOps cfg ie ++
   [SinkOp.dict_end])

/-- The assertion encountered by `logevt_process_image_exec`
(logevt.c:597): a rendered script sub-image must not carry a signature. -/
def logevt_process_image_exec_ok (ie : ImageExec) : Bool :=
  match ie.script with
  | some s => s.core.codesign.isNone
  | none => true

/-- `logevt_process_image_exec`, with abort-on-assertion-failure made
explicit: `none` when the assertion fires (no record is delivered). -/
def logevt_process_image_exec_run (cfg : Config) (w : World)
    (ie : ImageExec) : Option (List SinkOp) :=
  if logevt_process_image_exec_ok ie then
    some (logevt_process_image_exec cfg w ie)
  else none

/-- The loop of `logevt_process_image_exec_ancestors` (logevt.c:625-631):
walk the back-reference chain while the node exists and has a strictly
positive pid, stopping when the emitted depth reaches the remaining
budget. -/
def ancestorsLoop (cfg : Config) (w : World) :
    Option ImageExec → Nat → List SinkOp
  | none, _ => []
  | some (ImageExec.mk c s p), r =>
    if 0 < c.pid then
      match r with
      | 0 => []
      | Nat.succ r' =>
        SinkOp.list_item "ancestor" ::
        (logevt_process_image_exec cfg w (ImageExec.mk c s p) ++
         ancestorsLoop cfg w p r')
    else []

/-- `logevt_process_image_exec_ancestors` (logevt.c:620-633). -/
def logevt_process_image_exec_ancestors (cfg : Config) (w : World)
    (ie : Option ImageExec) : List SinkOp :=
  SinkOp.list_begin ::
  (ancestorsLoop cfg w ie cfg.ancestors ++ [SinkOp.list_end])

/-- Assertions encountered along the ancestor walk: one per rendered
node. -/
def ancestorsLoopOk : Option ImageExec → Nat → Bool
  | none, _ => true
  | some (ImageExec.mk c s p), r =>
    if 0 < c.pid then
      match r with
      | 0 => true
      | Nat.succ r' =>
        logevt_process_image_exec_ok (ImageExec.mk c s p) &&
        ancestorsLoopOk p r'
    else true

/-- `ie && (ie->flags & EIFLAG_PIDLOOKUP)` (logevt.c:644). -/
def iePidlookup : Option ImageExec → Bool
  | some i => i.core.flag_pidlookup
  | none => false

/-- logevt.c:644-647: the `reconstructed` marker at the head of the process
dictionary. -/
def reconOps (ie : Option ImageExec) : List SinkOp :=
  if iePidlookup ie then
    [SinkOp.dict_item "reconstructed", SinkOp.value_bool true]
  else []

/-- logevt.c:651-674: the full-descriptor credential block of
`logevt_process` (pid, the five ids through the identity resolver, session
id, controlling terminal, address). -/
def procCredOps (cfg : Config) (w : World) (p : AuditProc) : List SinkOp :=
  [SinkOp.dict_item "pid", SinkOp.value_int p.pid] ++
  logevt_uid cfg w p.auid "auid" "auname" ++
  logevt_uid cfg w p.euid "euid" "euname" ++
  (if !cfg.omit_groups then logevt_gid cfg w p.egid "egid" "egname"
   else []) ++
  logevt_uid cfg w p.ruid "ruid" "runame" ++
  (if !cfg.omit_groups then logevt_gid cfg w p.rgid "rgid" "rgname"
   else []) ++
  (if !cfg.omit_sid then [SinkOp.dict_item "sid", SinkOp.value_uint p.sid]
   else []) ++
  (if p.dev ≠ -1 then [SinkOp.dict_item "dev", SinkOp.value_ttydev p.dev]
   else []) ++
  (if !p.addr.empty then
    [SinkOp.dict_item "addr", SinkOp.value_string p.addr.str]
  else [])

/-- logevt.c:676-687: the attached-image part of `logevt_process`: fork
timestamp if positive, the process-context rendering, and the ancestor list
when a positive depth is configured. -/
def procIeOps (cfg : Config) (w : World) : Option ImageExec → List SinkOp
  | none => []
  | some i =>
    (if 0 < i.core.fork_tv.sec then
      [SinkOp.dict_item "fork_time", SinkOp.value_timespec i.core.fork_tv]
    else []) ++
    (SinkOp.dict_item "image" :: logevt_process_image_exec cfg w i) ++
    (if 0 < cfg.ancestors then
      SinkOp.dict_item "ancestors" ::
      logevt_process_image_exec_ancestors cfg w i.prev
    else [])

/-- `logevt_process` (logevt.c:639-689).  When only a pid is known the
caller passes `processpid > 0` and the descriptor is ignored even when
non-null. -/
def logevt_process (cfg : Config) (w : World) (process : Option AuditProc)
    (processpid : Int) (ie : Option ImageExec) : List SinkOp :=
  SinkOp.dict_begin ::
  (reconOps ie ++
   (if 0 < processpid then
     [SinkOp.dict_item "pid", SinkOp.value_int processpid]
   else
     match process with
     | some p => procCredOps cfg w p
     | none => []) ++
   procIeOps cfg w ie ++
   [SinkOp.dict_end])

/-- Assertions encountered by `logevt_process`: those of the attached
image rendering and of the ancestor walk. -/
def logevt_process_ok (cfg : Config) : Option ImageExec → Bool
  | none => true
  | some i =>
    logevt_process_image_exec_ok i &&
    (if 0 < cfg.ancestors then ancestorsLoopOk i.prev cfg.ancestors
     else true)

/-- `xnumon_ops_t`: header plus the ops subtype string. -/
structure XnumonOps where
  hdr : EvtHeader
  subtype : String
deriving DecidableEq, Repr

/-- `logevt_xnumon_ops` (logevt.c:112-237): the startup/ops dump. -/
def logevt_xnumon_ops (cfg : Config) (w : World) (ops : XnumonOps) :
    List SinkOp :=
  logevt_header ops.hdr ++
  ([SinkOp.dict_item "op", SinkOp.value_string ops.subtype,
    SinkOp.dict_item "build", SinkOp.dict_begin,
    SinkOp.dict_item "version", SinkOp.value_string w.build_version,
    SinkOp.dict_item "date", SinkOp.value_string w.build_date,
    SinkOp.dict_item "info", SinkOp.value_string w.build_info,
    SinkOp.dict_end,
    SinkOp.dict_item "config", SinkOp.dict_begin,
    SinkOp.dict_item "path", SinkOp.value_string cfg.path,
    SinkOp.dict_item "id"] ++
   (match cfg.id with
    | some s => [SinkOp.value_string s]
    | none => [SinkOp.value_null]) ++
   [SinkOp.dict_item "launchd_mode", SinkOp.value_bool cfg.launchd_mode,
    SinkOp.dict_item "debug", SinkOp.value_bool cfg.debug,
    SinkOp.dict_item "events", SinkOp.value_string cfg.events_s,
    SinkOp.dict_item "stats_interval", SinkOp.value_uint cfg.stats_interval,
    SinkOp.dict_item "kextlevel", SinkOp.value_string cfg.kextlevel_s,
    SinkOp.dict_item "hashes", SinkOp.value_string cfg.hflags_s,
    SinkOp.dict_item "codesign", SinkOp.value_bool cfg.codesign,
    SinkOp.dict_item "envlevel", SinkOp.value_string cfg.envlevel_s,
    SinkOp.dict_item "resolve_users_groups",
    SinkOp.value_bool cfg.resolve_users_groups,
    SinkOp.dict_item "omit_mode", SinkOp.value_bool cfg.omit_mode,
    SinkOp.dict_item "omit_size", SinkOp.value_bool cfg.omit_size,
    SinkOp.dict_item "omit_mtime", SinkOp.value_bool cfg.omit_mtime,
    SinkOp.dict_item "omit_ctime", SinkOp.value_bool cfg.omit_ctime,
    SinkOp.dict_item "omit_btime", SinkOp.value_bool cfg.omit_btime,
    SinkOp.dict_item "omit_sid", SinkOp.value_bool cfg.omit_sid,
    SinkOp.dict_item "omit_groups", SinkOp.value_bool cfg.omit_groups,
    SinkOp.dict_item "omit_apple_hashes",
    SinkOp.value_bool cfg.omit_apple_hashes,
    SinkOp.dict_item "ancestors"] ++
   (if cfg.ancestors < SIZEMAX then [SinkOp.value_uint cfg.ancestors]
    else [SinkOp.value_string "unlimited"]) ++
   [SinkOp.dict_item "logdst", SinkOp.value_string cfg.logdst_s,
    SinkOp.dict_item "logfmt", SinkOp.value_string cfg.logfmt_s,
    SinkOp.dict_item "logoneline"] ++
   (if cfg.logoneline = -1 then [SinkOp.value_null]
    else [SinkOp.value_bool (cfg.logoneline ≠ 0)]) ++
   [SinkOp.dict_item "logfile"] ++
   (match cfg.logfile with
    | some s => [SinkOp.value_string s]
    | none => [SinkOp.value_null]) ++
   [SinkOp.dict_item "limit_nofile", SinkOp.value_uint cfg.limit_nofile,
    SinkOp.dict_item "suppress_image_exec_at_start",
    SinkOp.value_bool cfg.suppress_image_exec_at_start,
    SinkOp.dict_item "suppress_image_exec_by_ident",
    SinkOp.value_uint cfg.suppress_image_exec_by_ident_sz,
    SinkOp.dict_item "suppress_image_exec_by_path",
    SinkOp.value_uint cfg.suppress_image_exec_by_path_sz,
    SinkOp.dict_item "suppress_image_exec_by_ancestor_ident",
    SinkOp.value_uint cfg.suppress_image_exec_by_ancestor_ident_sz,
    SinkOp.dict_item "suppress_image_exec_by_ancestor_path",
    SinkOp.value_uint cfg.suppress_image_exec_by_ancestor_path_sz,
    SinkOp.dict_item "suppress_process_access_by_subject_ident",
    SinkOp.value_uint cfg.suppress_process_access_by_subject_ident_sz,
    SinkOp.dict_item "suppress_process_access_by_subject_path",
    SinkOp.value_uint cfg.suppress_process_access_by_subject_path_sz,
    SinkOp.dict_item "suppress_socket_op_localhost",
    SinkOp.value_bool cfg.suppress_socket_op_localhost,
    SinkOp.dict_item "suppress_socket_op_by_subject_ident",
    SinkOp.value_uint cfg.suppress_socket_op_by_subject_ident_sz,
    SinkOp.dict_item "suppress_socket_op_by_subject_path",
    SinkOp.value_uint cfg.suppress_socket_op_by_subject_path_sz,
    SinkOp.dict_end,
    SinkOp.dict_item "system", SinkOp.dict_begin,
    SinkOp.dict_item "name", SinkOp.value_string w.os_name,
    SinkOp.dict_item "version", SinkOp.value_string w.os_version,
    SinkOp.dict_item "build", SinkOp.value_string w.os_build,
    SinkOp.dict_end]) ++
  logevt_footer

/-- Event-loop statistics (`evtloop_stat_t`), flattened into the exact
fields `logevt_xnumon_stats` reads, grouped as in the C struct. -/
structure EvtloopStat where
  hdr : EvtHeader
  el_aupclobbers : Nat
  el_aueunknowns : Nat
  el_failedsyscalls : Nat
  el_radar38845422 : Nat
  el_radar38845422_fatal : Nat
  el_radar38845784 : Nat
  el_radar39267328 : Nat
  el_radar39267328_fatal : Nat
  el_radar39623812 : Nat
  el_radar39623812_fatal : Nat
  el_radar42770257 : Nat
  el_radar42770257_fatal : Nat
  el_radar42783724 : Nat
  el_radar42783724_fatal : Nat
  el_radar42784847 : Nat
  el_radar42784847_fatal : Nat
  el_radar42946744 : Nat
  el_radar42946744_fatal : Nat
  el_radar43151662 : Nat
  el_radar43151662_fatal : Nat
  el_missingtoken : Nat
  el_ooms : Nat
  pm_procs : Nat
  pm_images : Nat
  pm_liveacq : Nat
  pm_miss_bypid : Nat
  pm_miss_forksubj : Nat
  pm_miss_execsubj : Nat
  pm_miss_execinterp : Nat
  pm_miss_chdirsubj : Nat
  pm_miss_getcwd : Nat
  pm_ooms : Nat
  pm_pqsize : Nat
  pm_pqlookup : Nat
  pm_pqmiss : Nat
  pm_pqdrop : Nat
  pm_pqskip : Nat
  hm_recvd : Nat
  hm_procd : Nat
  hm_ooms : Nat
  fm_recvd : Nat
  fm_procd : Nat
  fm_lpmiss : Nat
  fm_ooms : Nat
  sm_recvd : Nat
  sm_procd : Nat
  sm_ooms : Nat
  ke_cdev_qsize : Nat
  ke_kauth_visitors : Nat
  ke_kauth_timeouts : Nat
  ke_kauth_errors : Nat
  ke_kauth_defers : Nat
  ke_kauth_denies : Nat
  ap_qlen : Nat
  ap_qlimit : Nat
  ap_inserts : Nat
  ap_reads : Nat
  ap_drops : Nat
  wq_qsize : Nat
  lq_qsize : Nat
  lq_counts : Nat → Nat
  lq_errors : Nat
  ch_used : Nat
  ch_size : Nat
  ch_puts : Nat
  ch_gets : Nat
  ch_hits : Nat
  ch_misses : Nat
  ch_invalids : Nat
  cc_used : Nat
  cc_size : Nat
  cc_puts : Nat
  cc_gets : Nat
  cc_hits : Nat
  cc_misses : Nat
  cc_invalids : Nat
  cl_used : Nat
  cl_size : Nat
  cl_puts : Nat
  cl_gets : Nat
  cl_hits : Nat
  cl_misses : Nat
  cl_invalids : Nat

/-- `logevt_xnumon_stats` (logevt.c:239-473): the periodic stats dump. -/
def logevt_xnumon_stats (st : EvtloopStat) : List SinkOp :=
  logevt_header st.hdr ++
  ([SinkOp.dict_item "evtloop", SinkOp.dict_begin,
    SinkOp.dict_item "aupclobber", SinkOp.value_uint st.el_aupclobbers,
    SinkOp.dict_item "aueunknown", SinkOp.value_uint st.el_aueunknowns,
    SinkOp.dict_item "failedsyscall", SinkOp.value_uint st.el_failedsyscalls,
    SinkOp.dict_item "radar38845422", SinkOp.value_uint st.el_radar38845422,
    SinkOp.dict_item "radar38845422_fatal",
    SinkOp.value_uint st.el_radar38845422_fatal,
    SinkOp.dict_item "radar38845784", SinkOp.value_uint st.el_radar38845784,
    SinkOp.dict_item "radar39267328", SinkOp.value_uint st.el_radar39267328,
    SinkOp.dict_item "radar39267328_fatal",
    SinkOp.value_uint st.el_radar39267328_fatal,
    SinkOp.dict_item "radar39623812", SinkOp.value_uint st.el_radar39623812,
    SinkOp.dict_item "radar39623812_fatal",
    SinkOp.value_uint st.el_radar39623812_fatal,
    SinkOp.dict_item "radar42770257", SinkOp.value_uint st.el_radar42770257,
    SinkOp.dict_item "radar42770257_fatal",
    SinkOp.value_uint st.el_radar42770257_fatal,
    SinkOp.dict_item "radar42783724", SinkOp.value_uint st.el_radar42783724,
    SinkOp.dict_item "radar42783724_fatal",
    SinkOp.value_uint st.el_radar42783724_fatal,
    SinkOp.dict_item "radar42784847", SinkOp.value_uint st.el_radar42784847,
    SinkOp.dict_item "radar42784847_fatal",
    SinkOp.value_uint st.el_radar42784847_fatal,
    SinkOp.dict_item "radar42946744", SinkOp.value_uint st.el_radar42946744,
    SinkOp.dict_item "radar42946744_fatal",
    SinkOp.value_uint st.el_radar42946744_fatal,
    SinkOp.dict_item "radar43151662", SinkOp.value_uint st.el_radar43151662,
    SinkOp.dict_item "radar43151662_fatal",
    SinkOp.value_uint st.el_radar43151662_fatal,
    SinkOp.dict_item "missingtoken", SinkOp.value_uint st.el_missingtoken,
    SinkOp.dict_item "oom", SinkOp.value_uint st.el_ooms,
    SinkOp.dict_end,
    SinkOp.dict_item "procmon", SinkOp.dict_begin,
    SinkOp.dict_item "actprocs", SinkOp.value_uint st.pm_procs,
    SinkOp.dict_item "actexecimages", SinkOp.value_uint st.pm_images,
    SinkOp.dict_item "liveacq", SinkOp.value_uint st.pm_liveacq,
    SinkOp.dict_item "miss", SinkOp.dict_begin,
    SinkOp.dict_item "bypid", SinkOp.value_uint st.pm_miss_bypid,
    SinkOp.dict_item "forksubj", SinkOp.value_uint st.pm_miss_forksubj,
    SinkOp.dict_item "execsubj", SinkOp.value_uint st.pm_miss_execsubj,
    SinkOp.dict_item "execinterp", SinkOp.value_uint st.pm_miss_execinterp,
    SinkOp.dict_item "chdirsubj", SinkOp.value_uint st.pm_miss_chdirsubj,
    SinkOp.dict_item "getcwd", SinkOp.value_uint st.pm_miss_getcwd,
    SinkOp.dict_end,
    SinkOp.dict_item "oom", SinkOp.value_uint st.pm_ooms,
    SinkOp.dict_end,
    SinkOp.dict_item "hackmon", SinkOp.dict_begin,
    SinkOp.dict_item "recvd", SinkOp.value_uint st.hm_recvd,
    SinkOp.dict_item "procd", SinkOp.value_uint st.hm_procd,
    SinkOp.dict_item "oom", SinkOp.value_uint st.hm_ooms,
    SinkOp.dict_end,
    SinkOp.dict_item "filemon", SinkOp.dict_begin,
    SinkOp.dict_item "recvd", SinkOp.value_uint st.fm_recvd,
    SinkOp.dict_item "procd", SinkOp.value_uint st.fm_procd,
    SinkOp.dict_item "lpmiss", SinkOp.value_uint st.fm_lpmiss,
    SinkOp.dict_item "oom", SinkOp.value_uint st.fm_ooms,
    SinkOp.dict_end,
    SinkOp.dict_item "sockmon", SinkOp.dict_begin,
    SinkOp.dict_item "recvd", SinkOp.value_uint st.sm_recvd,
    SinkOp.dict_item "procd", SinkOp.value_uint st.sm_procd,
    SinkOp.dict_item "oom", SinkOp.value_uint st.sm_ooms,
    SinkOp.dict_end,
    SinkOp.dict_item "kext_cdevq", SinkOp.dict_begin,
    SinkOp.dict_item "buckets", SinkOp.value_uint st.ke_cdev_qsize,
    SinkOp.dict_item "visitors", SinkOp.value_uint st.ke_kauth_visitors,
    SinkOp.dict_item "timeout", SinkOp.value_uint st.ke_kauth_timeouts,
    SinkOp.dict_item "error", SinkOp.value_uint st.ke_kauth_errors,
    SinkOp.dict_item "defer", SinkOp.value_uint st.ke_kauth_defers,
    SinkOp.dict_item "deny", SinkOp.value_uint st.ke_kauth_denies,
    SinkOp.dict_end,
    SinkOp.dict_item "prep_queue", SinkOp.dict_begin,
    SinkOp.dict_item "buckets", SinkOp.value_uint st.pm_pqsize,
    SinkOp.dict_item "lookup", SinkOp.value_uint st.pm_pqlookup,
    SinkOp.dict_item "miss", SinkOp.value_uint st.pm_pqmiss,
    SinkOp.dict_item "drop", SinkOp.value_uint st.pm_pqdrop,
    SinkOp.dict_item "bktskip", SinkOp.value_uint st.pm_pqskip,
    SinkOp.dict_end,
    SinkOp.dict_item "aupi_cdevq", SinkOp.dict_begin,
    SinkOp.dict_item "buckets", SinkOp.value_uint st.ap_qlen,
    SinkOp.dict_item "bucketmax", SinkOp.value_uint st.ap_qlimit,
    SinkOp.dict_item "insert", SinkOp.value_uint st.ap_inserts,
    SinkOp.dict_item "read", SinkOp.value_uint st.ap_reads,
    SinkOp.dict_item "drop", SinkOp.value_uint st.ap_drops,
    SinkOp.dict_end,
    SinkOp.dict_item "work_queue", SinkOp.dict_begin,
    SinkOp.dict_item "buckets", SinkOp.value_uint st.wq_qsize,
    SinkOp.dict_end,
    SinkOp.dict_item "log_queue", SinkOp.dict_begin,
    SinkOp.dict_item "buckets", SinkOp.value_uint st.lq_qsize,
    SinkOp.dict_item "events", SinkOp.list_begin] ++
   (List.range LOGEVT_SIZE).flatMap (fun i =>
     [SinkOp.list_item "event", SinkOp.value_uint (st.lq_counts i)]) ++
   [SinkOp.list_end,
    SinkOp.dict_item "errors", SinkOp.value_uint st.lq_errors,
    SinkOp.dict_end,
    SinkOp.dict_item "hash_cache", SinkOp.dict_begin,
    SinkOp.dict_item "buckets", SinkOp.value_uint st.ch_used,
    SinkOp.dict_item "bucketmax", SinkOp.value_uint st.ch_size,
    SinkOp.dict_item "put", SinkOp.value_uint st.ch_puts,
    SinkOp.dict_item "get", SinkOp.value_uint st.ch_gets,
    SinkOp.dict_item "hit", SinkOp.value_uint st.ch_hits,
    SinkOp.dict_item "miss", SinkOp.value_uint st.ch_misses,
    SinkOp.dict_item "inv", SinkOp.value_uint st.ch_invalids,
    SinkOp.dict_end,
    SinkOp.dict_item "csig_cache", SinkOp.dict_begin,
    SinkOp.dict_item "buckets", SinkOp.value_uint st.cc_used,
    SinkOp.dict_item "bucketmax", SinkOp.value_uint st.cc_size,
    SinkOp.dict_item "put", SinkOp.value_uint st.cc_puts,
    SinkOp.dict_item "get", SinkOp.value_uint st.cc_gets,
    SinkOp.dict_item "hit", SinkOp.value_uint st.cc_hits,
    SinkOp.dict_item "miss", SinkOp.value_uint st.cc_misses,
    SinkOp.dict_item "inv", SinkOp.value_uint st.cc_invalids,
    SinkOp.dict_end,
    SinkOp.dict_item "ldpl_cache", SinkOp.dict_begin,
    SinkOp.dict_item "buckets", SinkOp.value_uint st.cl_used,
    SinkOp.dict_item "bucketmax", SinkOp.value_uint st.cl_size,
    SinkOp.dict_item "put", SinkOp.value_uint st.cl_puts,
    SinkOp.dict_item "get", SinkOp.value_uint st.cl_gets,
    SinkOp.dict_item "hit", SinkOp.value_uint st.cl_hits,
    SinkOp.dict_item "miss", SinkOp.value_uint st.cl_misses,
    SinkOp.dict_item "inv", SinkOp.value_uint st.cl_invalids,
    SinkOp.dict_end]) ++
  logevt_footer

/-- `logevt_image_exec` (logevt.c:691-742): the image-execution event. -/
def logevt_image_exec (cfg : Config) (w : World) (ie : ImageExec) :
    List SinkOp :=
  logevt_header ie.core.hdr ++
  ((if ie.core.flag_pidlookup then
     [SinkOp.dict_item "reconstructed", SinkOp.value_bool true]
   else []) ++
   (match ie.core.argv with
    | some args =>
      SinkOp.dict_item "argv" :: SinkOp.list_begin ::
      (args.flatMap (fun a => [SinkOp.list_item "arg", SinkOp.value_string a]) ++
       [SinkOp.list_end])
    | none => []) ++
   (match ie.core.envv with
    | some vars =>
      SinkOp.dict_item "env" :: SinkOp.list_begin ::
      (vars.flatMap (fun v => [SinkOp.list_item "var", SinkOp.value_string v]) ++
       [SinkOp.list_end])
    | none => []) ++
   (match ie.core.cwd with
    | some c => [SinkOp.dict_item "cwd", SinkOp.value_string c]
    | none => []) ++
   (SinkOp.dict_item "image" :: logevt_image_exec_image cfg w ie) ++
   (match ie.script with
    | some s => SinkOp.dict_item "script" :: logevt_image_exec_image cfg w s
    | none => []) ++
   (SinkOp.dict_item "subject" ::
    logevt_process cfg w
      (if ie.core.flag_pidlookup then none else some ie.core.subject) 0
      ie.prev)) ++
  logevt_footer

/-- Assertions encountered by `logevt_image_exec`: only those of the
subject's process rendering (the object-image rendering of the image and of
its script performs no check). -/
def logevt_image_exec_ok (cfg : Config) (ie : ImageExec) : Bool :=
  logevt_process_ok cfg ie.prev

/-- `logevt_image_exec` with abort-on-assertion-failure made explicit. -/
def logevt_image_exec_run (cfg : Config) (w : World) (ie : ImageExec) :
    Option (List SinkOp) :=
  if logevt_image_exec_ok cfg ie then some (logevt_image_exec cfg w ie)
  else none

/-- `process_access_t`. -/
structure ProcessAccess where
  hdr : EvtHeader
  method : String
  object : AuditProc
  objectpid : Int
  object_image_exec : Option ImageExec
  subject : AuditProc
  subject_image_exec : Option ImageExec

/-- `logevt_process_access` (logevt.c:744-765). -/
def logevt_process_access (cfg : Config) (w : World) (pa : ProcessAccess) :
    List SinkOp :=
  logevt_header pa.hdr ++
  ([SinkOp.dict_item "method", SinkOp.value_string pa.method] ++
   (SinkOp.dict_item "object" ::
    logevt_process cfg w (some pa.object) pa.objectpid
      pa.object_image_exec) ++
   (SinkOp.dict_item "subject" ::
    logevt_process cfg w (some pa.subject) 0 pa.subject_image_exec)) ++
  logevt_footer

/-- `launchd_add_t`; `flag_nosubject` models `LAFLAG_NOSUBJECT`. -/
structure LaunchdAdd where
  hdr : EvtHeader
  plist_path : String
  program_rpath : Option String
  program_path : Option String
  program_argv : Option (List String)
  flag_nosubject : Bool
  subject : AuditProc
  subject_image_exec : Option ImageExec

/-- `logevt_launchd_add` (logevt.c:767-809). -/
def logevt_launchd_add (cfg : Config) (w : World) (la : LaunchdAdd) :
    List SinkOp :=
  logevt_header la.hdr ++
  ([SinkOp.dict_item "plist", SinkOp.dict_begin,
    SinkOp.dict_item "path", SinkOp.value_string la.plist_path,
    SinkOp.dict_end,
    SinkOp.dict_item "program", SinkOp.dict_begin] ++
   (match la.program_rpath with
    | some s => [SinkOp.dict_item "rpath", SinkOp.value_string s]
    | none => []) ++
   (match la.program_path with
    | some s => [SinkOp.dict_item "path", SinkOp.value_string s]
    | none => []) ++
   (match la.program_argv with
    | some args =>
      SinkOp.dict_item "argv" :: SinkOp.list_begin ::
      (args.flatMap (fun a => [SinkOp.list_item "arg", SinkOp.value_string a]) ++
       [SinkOp.list_end])
    | none => []) ++
   [SinkOp.dict_end] ++
   (if !la.flag_nosubject then
     SinkOp.dict_item "subject" ::
     logevt_process cfg w (some la.subject) 0 la.subject_image_exec
   else [])) ++
  logevt_footer

/-- `socket_listen_t`. -/
structure SocketListen where
  hdr : EvtHeader
  protocol : Nat
  sock_addr : IpAddr
  sock_port : Nat
  subject : AuditProc
  subject_image_exec : Option ImageExec

/-- `logevt_socket_listen` (logevt.c:811-836). -/
def logevt_socket_listen (cfg : Config) (w : World) (so : SocketListen) :
    List SinkOp :=
  logevt_header so.hdr ++
  ((if so.protocol ≠ 0 then
     [SinkOp.dict_item "proto", SinkOp.value_string (w.protocoltoa so.protocol)]
   else []) ++
   (if !so.sock_addr.empty then
     [SinkOp.dict_item "sockaddr", SinkOp.value_string so.sock_addr.str,
      SinkOp.dict_item "sockport", SinkOp.value_uint so.sock_port]
   else []) ++
   (SinkOp.dict_item "subject" ::
    logevt_process cfg w (some so.subject) 0 so.subject_image_exec)) ++
  logevt_footer

/-- `socket_accept_t`. -/
structure SocketAccept where
  hdr : EvtHeader
  protocol : Nat
  sock_addr : IpAddr
  sock_port : Nat
  peer_addr : IpAddr
  peer_port : Nat
  subject : AuditProc
  subject_image_exec : Option ImageExec

/-- `logevt_socket_accept` (logevt.c:838-870). -/
def logevt_socket_accept (cfg : Config) (w : World) (so : SocketAccept) :
    List SinkOp :=
  logevt_header so.hdr ++
  ((if so.protocol ≠ 0 then
     [SinkOp.dict_item "proto", SinkOp.value_string (w.protocoltoa so.protocol)]
   else []) ++
   (if !so.sock_addr.empty then
     [SinkOp.dict_item "sockaddr", SinkOp.value_string so.sock_addr.str,
      SinkOp.dict_item "sockport", SinkOp.value_uint so.sock_port]
   else []) ++
   (if !so.peer_addr.empty then
     [SinkOp.dict_item "peeraddr", SinkOp.value_string so.peer_addr.str,
      SinkOp.dict_item "peerport", SinkOp.value_uint so.peer_port]
   else []) ++
   (SinkOp.dict_item "subject" ::
    logevt_process cfg w (some so.subject) 0 so.subject_image_exec)) ++
  logevt_footer

/-- `socket_connect_t` (same field shape as `socket_accept_t`, a distinct
C type). -/
structure SocketConnect where
  hdr : EvtHeader
  protocol : Nat
  sock_addr : IpAddr
  sock_port : Nat
  peer_addr : IpAddr
  peer_port : Nat
  subject : AuditProc
  subject_image_exec : Option ImageExec

/-- `logevt_socket_connect` (logevt.c:872-904). -/
def logevt_socket_connect (cfg : Config) (w : World) (so : SocketConnect) :
    List SinkOp :=
  logevt_header so.hdr ++
  ((if so.protocol ≠ 0 then
     [SinkOp.dict_item "proto", SinkOp.value_string (w.protocoltoa so.protocol)]
   else []) ++
   (if !so.sock_addr.empty then
     [SinkOp.dict_item "sockaddr", SinkOp.value_string so.sock_addr.str,
      SinkOp.dict_item "sockport", SinkOp.value_uint so.sock_port]
   else []) ++
   (if !so.peer_addr.empty then
     [SinkOp.dict_item "peeraddr", SinkOp.value_string so.peer_addr.str,
      SinkOp.dict_item "peerport", SinkOp.value_uint so.peer_port]
   else []) ++
   (SinkOp.dict_item "subject" ::
    logevt_process cfg w (some so.subject) 0 so.subject_image_exec)) ++
  logevt_footer

/-- One event descriptor of any of the eight kinds, for statements that
quantify over every serializer. -/
inductive Event where
  | xnumon_ops (o : XnumonOps)
  | xnumon_stats (st : EvtloopStat)
  | image_exec (ie : ImageExec)
  | process_access (pa : ProcessAccess)
  | launchd_add (la : LaunchdAdd)
  | socket_listen (so : SocketListen)
  | socket_accept (so : SocketAccept)
  | socket_connect (so : SocketConnect)

/-- Dispatch to the matching event serializer (the `logevt_le_t` function
table of `logevt.h`, as driven by the log thread). -/
def logevt_dispatch (cfg : Config) (w : World) : Event → List SinkOp
  | Event.xnumon_ops o => logevt_xnumon_ops cfg w o
  | Event.xnumon_stats st => logevt_xnumon_stats st
  | Event.image_exec ie => logevt_image_exec cfg w ie
  | Event.process_access pa => logevt_process_access cfg w pa
  | Event.launchd_add la => logevt_launchd_add cfg w la
  | Event.socket_listen so => logevt_socket_listen cfg w so
  | Event.socket_accept so => logevt_socket_accept cfg w so
  | Event.socket_connect so => logevt_socket_connect cfg w so

/-- Modelled from the spec: the sink destination state.  The concrete
logfmt/logdst implementations are outside this unit; per the spec the sink
records a write failure in its own state (like a `FILE` stream's sticky
error flag), which the caller of the serializer inspects to fail the
enclosing record.  `trace` is the sequence of attempted sink calls. -/
structure SinkState where
  trace : List SinkOp
  err : Bool
deriving DecidableEq, Repr

/-- Modelled from the spec: executing a sequence of sink calls against a
destination on which the calls in `fails` fail.  Every call is attempted in
order (the serializer never inspects the sink state); a failing call sets
the sticky error flag. -/
def runSink (fails : SinkOp → Bool) : List SinkOp → SinkState → SinkState
  | [], st => st
  | op :: ops, st =>
    runSink fails ops { trace := st.trace ++ [op], err := st.err || fails op }

/-- The walkable prefix of a back-reference chain: the consecutive nodes
with strictly positive pid, nearest first, up to the first sentinel
(non-positive pid) or the end of the chain. -/
def chainNodes : Option ImageExec → List ImageExec
  | none => []
  | some (ImageExec.mk c s p) =>
    if 0 < c.pid then ImageExec.mk c s p :: chainNodes p else []

def SinkOp.isRecBegin : SinkOp → Bool
  | SinkOp.record_begin => true
  | _ => false

def SinkOp.isRecEnd : SinkOp → Bool
  | SinkOp.record_end => true
  | _ => false

/-- Number of `record_begin` calls in a trace. -/
def recBegins (tr : List SinkOp) : Nat := tr.countP SinkOp.isRecBegin

/-- Number of `record_end` calls in a trace. -/
def recEnds (tr : List SinkOp) : Nat := tr.countP SinkOp.isRecEnd

@[simp] theorem dictKeys_nil : dictKeys [] = [] := rfl

@[simp] theorem dictKeys_append (l₁ l₂ : List SinkOp) :
    dictKeys (l₁ ++ l₂) = dictKeys l₁ ++ dictKeys l₂ :=
  List.filterMap_append l₁ l₂ keyOf

@[simp] theorem dictKeys_cons (o : SinkOp) (l : List SinkOp) :
    dictKeys (o :: l) = (keyOf o).toList ++ dictKeys l := by
  cases o <;> simp [dictKeys, List.filterMap_cons, keyOf, Option.toList]

@[simp] theorem dictKeys_ite (c : Prop) [Decidable c] (l₁ l₂ : List SinkOp) :
    dictKeys (if c then l₁ else l₂) = if c then dictKeys l₁ else dictKeys l₂ :=
  apply_ite dictKeys c l₁ l₂

@[simp] theorem keyOf_dict_item (k : String) :
    keyOf (SinkOp.dict_item k) = some k := rfl

@[simp] theorem keyOf_record_begin : keyOf SinkOp.record_begin = none := rfl
@[simp] theorem keyOf_record_end : keyOf SinkOp.record_end = none := rfl
@[simp] theorem keyOf_dict_begin : keyOf SinkOp.dict_begin = none := rfl
@[simp] theorem keyOf_dict_end : keyOf SinkOp.dict_end = none := rfl
@[simp] theorem keyOf_list_begin : keyOf SinkOp.list_begin = none := rfl
@[simp] theorem keyOf_list_end : keyOf SinkOp.list_end = none := rfl
@[simp] theorem keyOf_list_item (s : String) :
    keyOf (SinkOp.list_item s) = none := rfl
@[simp] theorem keyOf_value_string (s : String) :
    keyOf (SinkOp.value_string s) = none := rfl
@[simp] theorem keyOf_value_int (i : Int) :
    keyOf (SinkOp.value_int i) = none := rfl
@[simp] theorem keyOf_value_uint (n : Nat) :
    keyOf (SinkOp.value_uint n) = none := rfl
@[simp] theorem keyOf_value_uint_oct (n : Nat) :
    keyOf (SinkOp.value_uint_oct n) = none := rfl
@[simp] theorem keyOf_value_bool (b : Bool) :
    keyOf (SinkOp.value_bool b) = none := rfl
@[simp] theorem keyOf_value_null : keyOf SinkOp.value_null = none := rfl
@[simp] theorem keyOf_value_timespec (tv : TimeSpec) :
    keyOf (SinkOp.value_timespec tv) = none := rfl
@[simp] theorem keyOf_value_buf_hex (b : List Nat) (n : Nat) :
    keyOf (SinkOp.value_buf_hex b n) = none := rfl
@[simp] theorem keyOf_value_ttydev (d : Int) :
    keyOf (SinkOp.value_ttydev d) = none := rfl

@[simp] theorem recBegins_nil : recBegins [] = 0 := rfl

@[simp] theorem recBegins_append (l₁ l₂ : List SinkOp) :
    recBegins (l₁ ++ l₂) = recBegins l₁ + recBegins l₂ :=
  List.countP_append _ _ _

@[simp] theorem recBegins_cons (o : SinkOp) (l : List SinkOp) :
    recBegins (o :: l) = recBegins l + (if o.isRecBegin then 1 else 0) := by
  simp [recBegins, List.countP_cons]

@[simp] theorem recBegins_ite (c : Prop) [Decidable c] (l₁ l₂ : List SinkOp) :
    recBegins (if c then l₁ else l₂) = if c then recBegins l₁ else recBegins l₂ :=
  apply_ite recBegins c l₁ l₂

@[simp] theorem recEnds_nil : recEnds [] = 0 := rfl

@[simp] theorem recEnds_append (l₁ l₂ : List SinkOp) :
    recEnds (l₁ ++ l₂) = recEnds l₁ + recEnds l₂ :=
  List.countP_append _ _ _

@[simp] theorem recEnds_cons (o : SinkOp) (l : List SinkOp) :
    recEnds (o :: l) = recEnds l + (if o.isRecEnd then 1 else 0) := by
  simp [recEnds, List.countP_cons]

@[simp] theorem recEnds_ite (c : Prop) [Decidable c] (l₁ l₂ : List SinkOp) :
    recEnds (if c then l₁ else l₂) = if c then recEnds l₁ else recEnds l₂ :=
  apply_ite recEnds c l₁ l₂

theorem countP_flatMap_pair {α : Type} (p : SinkOp → Bool) (xs : List α)
    (f g : α → SinkOp) (hf : ∀ a, p (f a) = false) (hg : ∀ a, p (g a) = false) :
    (xs.flatMap (fun a => [f a, g a])).countP p = 0 := by
  induction xs with
  | nil => rfl
  | cons a xs ih => simp [List.countP_cons, hf, hg, ih]

theorem dictKeys_flatMap_pair {α : Type} (xs : List α) (f g : α → SinkOp)
    (hf : ∀ a, keyOf (f a) = none) (hg : ∀ a, keyOf (g a) = none) :
    dictKeys (xs.flatMap (fun a => [f a, g a])) = [] := by
  induction xs with
  | nil => rfl
  | cons a xs ih => simp [hf, hg, ih]


@[simp] theorem recBegins_logevt_uid (cfg w u il nl) :
    recBegins (logevt_uid cfg w u il nl) = 0 := by
  by_cases hs : u = IDNONE <;>
    by_cases hr : cfg.resolve_users_groups <;>
      cases h : w.getpwuid u <;>
        simp [logevt_uid, SinkOp.isRecBegin, hs, hr, h]

@[simp] theorem recEnds_logevt_uid (cfg w u il nl) :
    recEnds (logevt_uid cfg w u il nl) = 0 := by
  by_cases hs : u = IDNONE <;>
    by_cases hr : cfg.resolve_users_groups <;>
      cases h : w.getpwuid u <;>
        simp [logevt_uid, SinkOp.isRecEnd, hs, hr, h]

@[simp] theorem recBegins_logevt_gid (cfg w g il nl) :
    recBegins (logevt_gid cfg w g il nl) = 0 := by
  by_cases hs : g = IDNONE <;>
    by_cases hr : cfg.resolve_users_groups <;>
      cases h : w.getgrgid g <;>
        simp [logevt_gid, SinkOp.isRecBegin, hs, hr, h]

@[simp] theorem recEnds_logevt_gid (cfg w g il nl) :
    recEnds (logevt_gid cfg w g il nl) = 0 := by
  by_cases hs : g = IDNONE <;>
    by_cases hr : cfg.resolve_users_groups <;>
      cases h : w.getgrgid g <;>
        simp [logevt_gid, SinkOp.isRecEnd, hs, hr, h]

@[simp] theorem recBegins_hashesOps (cfg ie) :
    recBegins (hashesOps cfg ie) = 0 := by
  simp [hashesOps, SinkOp.isRecBegin]

@[simp] theorem recEnds_hashesOps (cfg ie) :
    recEnds (hashesOps cfg ie) = 0 := by
  simp [hashesOps, SinkOp.isRecEnd]

@[simp] theorem recBegins_statAttrOps (cfg w ie) :
    recBegins (statAttrOps cfg w ie) = 0 := by
  simp [statAttrOps, SinkOp.isRecBegin]

@[simp] theorem recEnds_statAttrOps (cfg w ie) :
    recEnds (statAttrOps cfg w ie) = 0 := by
  simp [statAttrOps, SinkOp.isRecEnd]

@[simp] theorem recBegins_statOps (cfg ie) :
    recBegins (statOps cfg ie) = 0 := by
  simp [statOps, SinkOp.isRecBegin]

@[simp] theorem recEnds_statOps (cfg ie) :
    recEnds (statOps cfg ie) = 0 := by
  simp [statOps, SinkOp.isRecEnd]

@[simp] theorem recBegins_csOps (ie) : recBegins (csOps ie) = 0 := by
  cases hcs : ie.core.codesign with
  | none => simp [csOps, hcs]
  | some cs =>
    cases h1 : cs.cdhash <;> cases h2 : cs.ident <;> cases h3 : cs.teamid <;>
      cases h4 : cs.certcn <;>
        simp [csOps, hcs, h1, h2, h3, h4, SinkOp.isRecBegin]

@[simp] theorem recEnds_csOps (ie) : recEnds (csOps ie) = 0 := by
  cases hcs : ie.core.codesign with
  | none => simp [csOps, hcs]
  | some cs =>
    cases h1 : cs.cdhash <;> cases h2 : cs.ident <;> cases h3 : cs.teamid <;>
      cases h4 : cs.certcn <;>
        simp [csOps, hcs, h1, h2, h3, h4, SinkOp.isRecEnd]

@[simp] theorem recBegins_logevt_image_exec_image (cfg w ie) :
    recBegins (logevt_image_exec_image cfg w ie) = 0 := by
  simp [logevt_image_exec_image, SinkOp.isRecBegin]

@[simp] theorem recEnds_logevt_image_exec_image (cfg w ie) :
    recEnds (logevt_image_exec_image cfg w ie) = 0 := by
  simp [logevt_image_exec_image, SinkOp.isRecEnd]

@[simp] theorem recBegins_pieSigOps (ie) : recBegins (pieSigOps ie) = 0 := by
  cases hcs : ie.core.codesign with
  | none => simp [pieSigOps, hcs]
  | some cs =>
    cases h2 : cs.ident <;> cases h3 : cs.teamid <;>
      simp [pieSigOps, hcs, h2, h3, SinkOp.isRecBegin]

@[simp] theorem recEnds_pieSigOps (ie) : recEnds (pieSigOps ie) = 0 := by
  cases hcs : ie.core.codesign with
  | none => simp [pieSigOps, hcs]
  | some cs =>
    cases h2 : cs.ident <;> cases h3 : cs.teamid <;>
      simp [pieSigOps, hcs, h2, h3, SinkOp.isRecEnd]

@[simp] theorem recBegins_pieScriptOps (cfg ie) :
    recBegins (pieScriptOps cfg ie) = 0 := by
  cases hs : ie.script with
  | none => simp [pieScriptOps, hs]
  | some s => simp [pieScriptOps, hs, SinkOp.isRecBegin]

@[simp] theorem recEnds_pieScriptOps (cfg ie) :
    recEnds (pieScriptOps cfg ie) = 0 := by
  cases hs : ie.script with
  | none => simp [pieScriptOps, hs]
  | some s => simp [pieScriptOps, hs, SinkOp.isRecEnd]

@[simp] theorem recBegins_logevt_process_image_exec (cfg w ie) :
    recBegins (logevt_process_image_exec cfg w ie) = 0 := by
  simp [logevt_process_image_exec, SinkOp.isRecBegin]

@[simp] theorem recEnds_logevt_process_image_exec (cfg w ie) :
    recEnds (logevt_process_image_exec cfg w ie) = 0 := by
  simp [logevt_process_image_exec, SinkOp.isRecEnd]

theorem recBegins_ancestorsLoop (cfg w) :
    ∀ (pie : Option ImageExec) (r : Nat),
      recBegins (ancestorsLoop cfg w pie r) = 0
  | none, _ => by simp [ancestorsLoop]
  | some (ImageExec.mk c s p), r => by
    cases r with
    | zero => by_cases h : 0 < c.pid <;> simp [ancestorsLoop, h]
    | succ r' =>
      by_cases h : 0 < c.pid <;>
        simp [ancestorsLoop, h, SinkOp.isRecBegin,
              recBegins_ancestorsLoop cfg w p r']

theorem recEnds_ancestorsLoop (cfg w) :
    ∀ (pie : Option ImageExec) (r : Nat),
      recEnds (ancestorsLoop cfg w pie r) = 0
  | none, _ => by simp [ancestorsLoop]
  | some (ImageExec.mk c s p), r => by
    cases r with
    | zero => by_cases h : 0 < c.pid <;> simp [ancestorsLoop, h]
    | succ r' =>
      by_cases h : 0 < c.pid <;>
        simp [ancestorsLoop, h, SinkOp.isRecEnd,
              recEnds_ancestorsLoop cfg w p r']

@[simp] theorem recBegins_ancestors (cfg w ie) :
    recBegins (logevt_process_image_exec_ancestors cfg w ie) = 0 := by
  simp [logevt_process_image_exec_ancestors, SinkOp.isRecBegin,
        recBegins_ancestorsLoop]

@[simp] theorem recEnds_ancestors (cfg w ie) :
    recEnds (logevt_process_image_exec_ancestors cfg w ie) = 0 := by
  simp [logevt_process_image_exec_ancestors, SinkOp.isRecEnd,
        recEnds_ancestorsLoop]

@[simp] theorem recBegins_reconOps (ie) : recBegins (reconOps ie) = 0 := by
  simp [reconOps, SinkOp.isRecBegin]

@[simp] theorem recEnds_reconOps (ie) : recEnds (reconOps ie) = 0 := by
  simp [reconOps, SinkOp.isRecEnd]

@[simp] theorem recBegins_procCredOps (cfg w p) :
    recBegins (procCredOps cfg w p) = 0 := by
  simp [procCredOps, SinkOp.isRecBegin]

@[simp] theorem recEnds_procCredOps (cfg w p) :
    recEnds (procCredOps cfg w p) = 0 := by
  simp [procCredOps, SinkOp.isRecEnd]

@[simp] theorem recBegins_procIeOps (cfg w ie) :
    recBegins (procIeOps cfg w ie) = 0 := by
  cases ie with
  | none => simp [procIeOps]
  | some i => simp [procIeOps, SinkOp.isRecBegin]

@[simp] theorem recEnds_procIeOps (cfg w ie) :
    recEnds (procIeOps cfg w ie) = 0 := by
  cases ie with
  | none => simp [procIeOps]
  | some i => simp [procIeOps, SinkOp.isRecEnd]

@[simp] theorem recBegins_logevt_process (cfg w prc ppid ie) :
    recBegins (logevt_process cfg w prc ppid ie) = 0 := by
  cases prc <;> simp [logevt_process, SinkOp.isRecBegin]

@[simp] theorem recEnds_logevt_process (cfg w prc ppid ie) :
    recEnds (logevt_process cfg w prc ppid ie) = 0 := by
  cases prc <;> simp [logevt_process, SinkOp.isRecEnd]

theorem recBegins_flatMap_pair {α : Type} (xs : List α) (f g : α → SinkOp)
    (hf : ∀ a, (f a).isRecBegin = false) (hg : ∀ a, (g a).isRecBegin = false) :
    recBegins (xs.flatMap (fun a => [f a, g a])) = 0 :=
  countP_flatMap_pair SinkOp.isRecBegin xs f g hf hg

theorem recEnds_flatMap_pair {α : Type} (xs : List α) (f g : α → SinkOp)
    (hf : ∀ a, (f a).isRecEnd = false) (hg : ∀ a, (g a).isRecEnd = false) :
    recEnds (xs.flatMap (fun a => [f a, g a])) = 0 :=
  countP_flatMap_pair SinkOp.isRecEnd xs f g hf hg

theorem take3_cons (a b c : String) (l : List String) :
    (a :: b :: c :: l).take 3 = [a, b, c] := rfl

set_option maxRecDepth 16000 in
/-- C1: every one of the eight event serializers produces exactly one
`record_begin` and one `record_end`, and the first three dictionary keys of
the record are `version`, `time`, `eventcode`, in that order. -/
theorem c1_record_envelope (cfg : Config) (w : World) (e : Event) :
    recBegins (logevt_dispatch cfg w e) = 1 ∧
    recEnds (logevt_dispatch cfg w e) = 1 ∧
    (dictKeys (logevt_dispatch cfg w e)).take 3 =
      ["version", "time", "eventcode"] := by
  cases e with
  | xnumon_ops o =>
    refine ⟨?_, ?_, ?_⟩ <;>
      cases h1 : cfg.id <;> cases h2 : cfg.logfile <;>
        simp [logevt_dispatch, logevt_xnumon_ops, logevt_header, logevt_footer,
              SinkOp.isRecBegin, SinkOp.isRecEnd, h1, h2, take3_cons]
  | xnumon_stats st =>
    refine ⟨?_, ?_, ?_⟩ <;>
      simp [logevt_dispatch, logevt_xnumon_stats, logevt_header, logevt_footer,
            SinkOp.isRecBegin, SinkOp.isRecEnd, recBegins_flatMap_pair,
            recEnds_flatMap_pair, dictKeys_flatMap_pair, take3_cons]
  | image_exec ie =>
    refine ⟨?_, ?_, ?_⟩ <;>
      cases h1 : ie.core.argv <;> cases h2 : ie.core.envv <;>
        cases h3 : ie.core.cwd <;> cases h4 : ie.script <;>
          simp [logevt_dispatch, logevt_image_exec, logevt_header,
                logevt_footer, SinkOp.isRecBegin, SinkOp.isRecEnd,
                recBegins_flatMap_pair, recEnds_flatMap_pair,
                dictKeys_flatMap_pair, h1, h2, h3, h4, take3_cons]
  | process_access pa =>
    refine ⟨?_, ?_, ?_⟩ <;>
      simp [logevt_dispatch, logevt_process_access, logevt_header,
            logevt_footer, SinkOp.isRecBegin, SinkOp.isRecEnd, take3_cons]
  | launchd_add la =>
    refine ⟨?_, ?_, ?_⟩ <;>
      cases h1 : la.program_rpath <;> cases h2 : la.program_path <;>
        cases h3 : la.program_argv <;>
          simp [logevt_dispatch, logevt_launchd_add, logevt_header,
                logevt_footer, SinkOp.isRecBegin, SinkOp.isRecEnd,
                recBegins_flatMap_pair, recEnds_flatMap_pair,
                dictKeys_flatMap_pair, h1, h2, h3, take3_cons]
  | socket_listen so =>
    refine ⟨?_, ?_, ?_⟩ <;>
      simp [logevt_dispatch, logevt_socket_listen, logevt_header,
            logevt_footer, SinkOp.isRecBegin, SinkOp.isRecEnd, take3_cons]
  | socket_accept so =>
    refine ⟨?_, ?_, ?_⟩ <;>
      simp [logevt_dispatch, logevt_socket_accept, logevt_header,
            logevt_footer, SinkOp.isRecBegin, SinkOp.isRecEnd, take3_cons]
  | socket_connect so =>
    refine ⟨?_, ?_, ?_⟩ <;>
      simp [logevt_dispatch, logevt_socket_connect, logevt_header,
            logevt_footer, SinkOp.isRecBegin, SinkOp.isRecEnd, take3_cons]

theorem dictKeys_logevt_uid (cfg w u il nl) :
    dictKeys (logevt_uid cfg w u il nl) =
      il :: (if u ≠ IDNONE ∧ cfg.resolve_users_groups = true ∧
                (w.getpwuid u).isSome then [nl] else []) := by
  by_cases hs : u = IDNONE <;>
    by_cases hr : cfg.resolve_users_groups <;>
      cases h : w.getpwuid u <;> simp [logevt_uid, hs, hr, h]

theorem dictKeys_logevt_gid (cfg w g il nl) :
    dictKeys (logevt_gid cfg w g il nl) =
      il :: (if g ≠ IDNONE ∧ cfg.resolve_users_groups = true ∧
                (w.getgrgid g).isSome then [nl] else []) := by
  by_cases hs : g = IDNONE <;>
    by_cases hr : cfg.resolve_users_groups <;>
      cases h : w.getgrgid g <;> simp [logevt_gid, hs, hr, h]

theorem take2_cons {α : Type} (a b : α) (l : List α) :
    (a :: b :: l).take 2 = [a, b] := rfl

/-- C5: the numeric id field is always emitted first; the symbolic name
field appears iff resolution is configured and the lookup succeeds; the
sentinel id emits exactly `-1` with no name field and independently of the
configuration and of the name service (no lookup can influence the
output). -/
theorem c5_identity_resolution (cfg : Config) (w : World) (u g : Nat)
    (il nl : String) (hne : il ≠ nl) :
    logevt_uid cfg w IDNONE il nl =
      [SinkOp.dict_item il, SinkOp.value_int (-1)] ∧
    logevt_gid cfg w IDNONE il nl =
      [SinkOp.dict_item il, SinkOp.value_int (-1)] ∧
    (u ≠ IDNONE →
      (logevt_uid cfg w u il nl).take 2 =
        [SinkOp.dict_item il, SinkOp.value_uint u] ∧
      (nl ∈ dictKeys (logevt_uid cfg w u il nl) ↔
        cfg.resolve_users_groups = true ∧ (w.getpwuid u).isSome)) ∧
    (g ≠ IDNONE →
      (logevt_gid cfg w g il nl).take 2 =
        [SinkOp.dict_item il, SinkOp.value_uint g] ∧
      (nl ∈ dictKeys (logevt_gid cfg w g il nl) ↔
        cfg.resolve_users_groups = true ∧ (w.getgrgid g).isSome)) := by
  refine ⟨by simp [logevt_uid], by simp [logevt_gid], fun hu => ⟨?_, ?_⟩,
          fun hg => ⟨?_, ?_⟩⟩
  · simp [logevt_uid, hu, take2_cons]
  · simp [dictKeys_logevt_uid, hu, hne.symm]
  · simp [logevt_gid, hg, take2_cons]
  · simp [dictKeys_logevt_gid, hg, hne.symm]

/-- A concrete configuration snapshot used by the closed instantiations. -/
def cfg0 : Config :=
  { path := "/etc/xnumon.conf", id := none, launchd_mode := false,
    debug := false, events_s := "", stats_interval := 300,
    kextlevel_s := "all", hflags_md5 := true, hflags_sha1 := false,
    hflags_sha256 := true, hflags_s := "md5,sha256", codesign := true,
    envlevel_s := "dyld", resolve_users_groups := true,
    omit_mode := false, omit_size := false, omit_mtime := false,
    omit_ctime := false, omit_btime := false, omit_sid := false,
    omit_groups := false, omit_apple_hashes := false, ancestors := 1,
    logdst_s := "file", logfmt_s := "json", logoneline := 0,
    logfile := none, limit_nofile := 4096,
    suppress_image_exec_at_start := false,
    suppress_image_exec_by_ident_sz := 0,
    suppress_image_exec_by_path_sz := 0,
    suppress_image_exec_by_ancestor_ident_sz := 0,
    suppress_image_exec_by_ancestor_path_sz := 0,
    suppress_process_access_by_subject_ident_sz := 0,
    suppress_process_access_by_subject_path_sz := 0,
    suppress_socket_op_localhost := false,
    suppress_socket_op_by_subject_ident_sz := 0,
    suppress_socket_op_by_subject_path_sz := 0 }

/-- A concrete environment used by the closed instantiations. -/
def w0 : World :=
  { getpwuid := fun u => if u = 7 then some "alice" else none,
    getgrgid := fun _ => none, build_version := "v", build_date := "d",
    build_info := "i", os_name := "macOS", os_version := "10.14",
    os_build := "18A", protocoltoa := fun _ => "tcp4" }

/-- Witness for C5 at concrete inputs. -/
theorem c5_identity_resolution_witness :
    ("uid" : String) ≠ "uname" ∧ (7 : Nat) ≠ IDNONE ∧ (9 : Nat) ≠ IDNONE ∧
    logevt_uid cfg0 w0 IDNONE "uid" "uname" =
      [SinkOp.dict_item "uid", SinkOp.value_int (-1)] := by
  refine ⟨by decide, by decide, by decide, ?_⟩
  exact (c5_identity_resolution cfg0 w0 7 9 "uid" "uname" (by decide)).1

def isAncItem : SinkOp → Bool
  | SinkOp.list_item l => l == "ancestor"
  | _ => false

/-- Number of ancestor entries announced in a trace. -/
def ancItems (tr : List SinkOp) : Nat := tr.countP isAncItem

@[simp] theorem ancItems_nil : ancItems [] = 0 := rfl

@[simp] theorem ancItems_append (l₁ l₂ : List SinkOp) :
    ancItems (l₁ ++ l₂) = ancItems l₁ + ancItems l₂ :=
  List.countP_append _ _ _

@[simp] theorem ancItems_cons (o : SinkOp) (l : List SinkOp) :
    ancItems (o :: l) = ancItems l + (if isAncItem o then 1 else 0) := by
  simp [ancItems, List.countP_cons]

@[simp] theorem ancItems_ite (c : Prop) [Decidable c] (l₁ l₂ : List SinkOp) :
    ancItems (if c then l₁ else l₂) = if c then ancItems l₁ else ancItems l₂ :=
  apply_ite ancItems c l₁ l₂

theorem ancItems_logevt_process_image_exec (cfg w ie) :
    ancItems (logevt_process_image_exec cfg w ie) = 0 := by
  have hsig : ancItems (pieSigOps ie) = 0 := by
    cases hcs : ie.core.codesign with
    | none => simp [pieSigOps, hcs]
    | some cs =>
      cases h2 : cs.ident <;> cases h3 : cs.teamid <;>
        simp [pieSigOps, hcs, h2, h3, isAncItem]
  have hscr : ancItems (pieScriptOps cfg ie) = 0 := by
    cases hs : ie.script with
    | none => simp [pieScriptOps, hs]
    | some s => simp [pieScriptOps, hs, isAncItem]
  simp [logevt_process_image_exec, hashesOps, isAncItem, hsig, hscr]

theorem ancestorsLoop_eq_take (cfg w) :
    ∀ (pie : Option ImageExec) (d : Nat),
      ancestorsLoop cfg w pie d =
        ((chainNodes pie).take d).flatMap
          (fun p => SinkOp.list_item "ancestor" ::
                    logevt_process_image_exec cfg w p)
  | none, d => by simp [ancestorsLoop, chainNodes]
  | some (ImageExec.mk c s p), d => by
    by_cases h : 0 < c.pid
    · cases d with
      | zero => simp [ancestorsLoop, chainNodes, h]
      | succ d' =>
        simp [ancestorsLoop, chainNodes, h, ancestorsLoop_eq_take cfg w p d']
    · cases d <;> simp [ancestorsLoop, chainNodes, h]

theorem ancItems_flatMap_renders (cfg w) (xs : List ImageExec) :
    ancItems (xs.flatMap
      (fun p => SinkOp.list_item "ancestor" ::
                logevt_process_image_exec cfg w p)) = xs.length := by
  induction xs with
  | nil => rfl
  | cons x xs ih =>
    simp [ih, isAncItem, ancItems_logevt_process_image_exec]

/-- C2: for a process rendering with an attached image-exec and a positive
configured depth, the ancestor list is emitted from the immediate
predecessor chain; the walk renders exactly the first
`min depth (walkable chain length)` nodes in chain order (nearest first),
so a chain longer than the configured depth yields exactly `depth`
entries. -/
theorem c2_ancestors_depth (cfg : Config) (w : World) :
    (∀ pie, logevt_process_image_exec_ancestors cfg w pie =
      SinkOp.list_begin ::
      (((chainNodes pie).take cfg.ancestors).flatMap
        (fun p => SinkOp.list_item "ancestor" ::
                  logevt_process_image_exec cfg w p) ++
       [SinkOp.list_end])) ∧
    (∀ pie, cfg.ancestors < (chainNodes pie).length →
      ancItems (logevt_process_image_exec_ancestors cfg w pie) =
        cfg.ancestors) ∧
    (∀ prc ppid i, 0 < cfg.ancestors →
      ∃ pre, logevt_process cfg w prc ppid (some i) =
        pre ++ (SinkOp.dict_item "ancestors" ::
                logevt_process_image_exec_ancestors cfg w i.prev) ++
        [SinkOp.dict_end]) := by
  refine ⟨?_, ?_, ?_⟩
  · intro pie
    simp [logevt_process_image_exec_ancestors, ancestorsLoop_eq_take]
  · intro pie h
    simp [logevt_process_image_exec_ancestors, ancestorsLoop_eq_take,
          isAncItem, ancItems_flatMap_renders, List.length_take]
    omega
  · intro prc ppid i h
    refine ⟨SinkOp.dict_begin ::
      (reconOps (some i) ++
       (if 0 < ppid then [SinkOp.dict_item "pid", SinkOp.value_int ppid]
        else match prc with
          | some p => procCredOps cfg w p
          | none => []) ++
       ((if 0 < i.core.fork_tv.sec then
          [SinkOp.dict_item "fork_time",
           SinkOp.value_timespec i.core.fork_tv]
        else []) ++
        (SinkOp.dict_item "image" :: logevt_process_image_exec cfg w i))), ?_⟩
    cases prc <;> simp [logevt_process, procIeOps, h]

/-- A concrete process credential record for the closed instantiations. -/
def proc0 : AuditProc :=
  { pid := 4242, auid := 7, euid := 7, egid := 20, ruid := 7, rgid := 20,
    sid := 100, dev := -1, addr := { empty := true, str := "" } }

/-- A concrete image-exec core for the closed instantiations. -/
def core0 : ImageExecCore :=
  { hdr := { tv := { sec := 10, nsec := 0 }, code := 1 }, pid := 4242,
    path := "/bin/ls", flag_stat := true, flag_attr := false,
    flag_hashes := true, flag_pidlookup := false, stat_mode := 493,
    stat_uid := 0, stat_gid := 0, stat_size := 100,
    stat_mtime := { sec := 1, nsec := 0 },
    stat_ctime := { sec := 2, nsec := 0 },
    stat_btime := { sec := 3, nsec := 0 }, md5 := [], sha1 := [],
    sha256 := [], codesign := none, argv := none, envv := none,
    cwd := none, fork_tv := { sec := 0, nsec := 0 }, subject := proc0 }

/-- A one-node chain terminator: pid 1, `/sbin/launchd`. -/
def ie1 : ImageExec :=
  ImageExec.mk { core0 with pid := 1, path := "/sbin/launchd" } none none

/-- A two-node chain: pid 345 whose predecessor is `ie1`. -/
def ie2 : ImageExec :=
  ImageExec.mk { core0 with pid := 345 } none (some ie1)

/-- Witness for C2: with configured depth 1 and a two-node walkable chain,
exactly one ancestor entry is emitted, and the ancestor list of a process
rendering hangs off the `ancestors` key. -/
theorem c2_ancestors_depth_witness :
    cfg0.ancestors < (chainNodes (some ie2)).length ∧
    ancItems (logevt_process_image_exec_ancestors cfg0 w0 (some ie2)) =
      cfg0.ancestors ∧
    (0 : Nat) < cfg0.ancestors ∧
    (∃ pre, logevt_process cfg0 w0 (some proc0) 0 (some ie2) =
      pre ++ (SinkOp.dict_item "ancestors" ::
              logevt_process_image_exec_ancestors cfg0 w0 ie2.prev) ++
      [SinkOp.dict_end]) := by
  have hlen : cfg0.ancestors < (chainNodes (some ie2)).length := by
    simp [chainNodes, ie2, ie1, core0, cfg0]
  refine ⟨hlen, (c2_ancestors_depth cfg0 w0).2.1 (some ie2) hlen,
          by simp [cfg0], (c2_ancestors_depth cfg0 w0).2.2 (some proc0) 0 ie2
            (by simp [cfg0])⟩

theorem mem_ite_list {α : Type} (c : Prop) [Decidable c] (x : α)
    (l₁ l₂ : List α) :
    x ∈ (if c then l₁ else l₂) ↔ (c ∧ x ∈ l₁) ∨ (¬c ∧ x ∈ l₂) := by
  split <;> simp [*]

theorem hashesOps_keys_sub (cfg ie) :
    ∀ k ∈ dictKeys (hashesOps cfg ie),
      k ∈ (["md5", "sha1", "sha256"] : List String) := by
  intro k hk
  simp [hashesOps, mem_ite_list] at hk ⊢
  tauto

theorem statAttrOps_keys_sub (cfg w ie) :
    ∀ k ∈ dictKeys (statAttrOps cfg w ie),
      k ∈ (["mode", "uid", "uname", "gid", "gname"] : List String) := by
  intro k hk
  simp [statAttrOps, mem_ite_list, dictKeys_logevt_uid,
        dictKeys_logevt_gid] at hk ⊢
  tauto

theorem statOps_keys_sub (cfg ie) :
    ∀ k ∈ dictKeys (statOps cfg ie),
      k ∈ (["size", "mtime", "ctime", "btime"] : List String) := by
  intro k hk
  simp [statOps, mem_ite_list] at hk ⊢
  tauto

theorem csOps_keys_sub (ie) :
    ∀ k ∈ dictKeys (csOps ie),
      k ∈ (["signature", "origin", "cdhash", "ident", "teamid", "certcn"] :
             List String) := by
  intro k hk
  cases hcs : ie.core.codesign with
  | none => simp [csOps, hcs] at hk
  | some cs =>
    cases h1 : cs.cdhash <;> cases h2 : cs.ident <;> cases h3 : cs.teamid <;>
      cases h4 : cs.certcn <;>
        simp [csOps, hcs, h1, h2, h3, h4, mem_ite_list] at hk ⊢ <;> tauto

theorem obj_keys_sub (cfg w ie) :
    ∀ k ∈ dictKeys (logevt_image_exec_image cfg w ie),
      k ∈ (["path", "mode", "uid", "uname", "gid", "gname", "size", "mtime",
            "ctime", "btime", "md5", "sha1", "sha256", "signature", "origin",
            "cdhash", "ident", "teamid", "certcn"] : List String) := by
  intro k hk
  simp [logevt_image_exec_image] at hk
  rcases hk with rfl | hk | hk | hk | hk
  · simp
  · have := statAttrOps_keys_sub cfg w ie k hk
    simp at this ⊢; tauto
  · have := statOps_keys_sub cfg ie k hk
    simp at this ⊢; tauto
  · have := hashesOps_keys_sub cfg ie k hk
    simp at this ⊢; tauto
  · have := csOps_keys_sub ie k hk
    simp at this ⊢; tauto

theorem pieSigOps_keys_sub (ie) :
    ∀ k ∈ dictKeys (pieSigOps ie),
      k ∈ (["ident", "teamid"] : List String) := by
  intro k hk
  cases hcs : ie.core.codesign with
  | none => simp [pieSigOps, hcs] at hk
  | some cs =>
    cases h2 : cs.ident <;> cases h3 : cs.teamid <;>
      simp [pieSigOps, hcs, h2, h3, mem_ite_list] at hk ⊢ <;> tauto

theorem pieScriptOps_keys_sub (cfg ie) :
    ∀ k ∈ dictKeys (pieScriptOps cfg ie),
      k ∈ (["script", "path", "md5", "sha1", "sha256"] : List String) := by
  intro k hk
  cases hs : ie.script with
  | none => simp [pieScriptOps, hs] at hk
  | some s => simp [pieScriptOps, hs, mem_ite_list] at hk ⊢; tauto

theorem pie_keys_sub (cfg w ie) :
    ∀ k ∈ dictKeys (logevt_process_image_exec cfg w ie),
      k ∈ (["exec_time", "exec_pid", "path", "md5", "sha1", "sha256",
            "ident", "teamid", "script"] : List String) := by
  intro k hk
  simp [logevt_process_image_exec, mem_ite_list] at hk
  rcases hk with ⟨_, rfl⟩ | rfl | rfl | hk | hk | hk
  · simp
  · simp
  · simp
  · have := hashesOps_keys_sub cfg ie k hk
    simp at this ⊢; tauto
  · have := pieSigOps_keys_sub ie k hk
    simp at this ⊢; tauto
  · have := pieScriptOps_keys_sub cfg ie k hk
    simp at this ⊢; tauto

theorem ancestorsLoop_keys_sub (cfg w) :
    ∀ (pie : Option ImageExec) (r : Nat),
      ∀ k ∈ dictKeys (ancestorsLoop cfg w pie r),
        k ∈ (["exec_time", "exec_pid", "path", "md5", "sha1", "sha256",
              "ident", "teamid", "script"] : List String)
  | none, r => by simp [ancestorsLoop]
  | some (ImageExec.mk c s p), r => by
    intro k hk
    by_cases h : 0 < c.pid
    · cases r with
      | zero => simp [ancestorsLoop, h] at hk
      | succ r' =>
        simp [ancestorsLoop, h] at hk
        rcases hk with hk | hk
        · exact pie_keys_sub cfg w (ImageExec.mk c s p) k hk
        · exact ancestorsLoop_keys_sub cfg w p r' k hk
    · cases r <;> simp [ancestorsLoop, h] at hk

theorem ancestors_keys_sub (cfg w ie) :
    ∀ k ∈ dictKeys (logevt_process_image_exec_ancestors cfg w ie),
      k ∈ (["exec_time", "exec_pid", "path", "md5", "sha1", "sha256",
            "ident", "teamid", "script"] : List String) := by
  intro k hk
  simp [logevt_process_image_exec_ancestors] at hk
  exact ancestorsLoop_keys_sub cfg w ie cfg.ancestors k hk

theorem procCredOps_keys_sub (cfg w p) :
    ∀ k ∈ dictKeys (procCredOps cfg w p),
      k ∈ (["pid", "auid", "auname", "euid", "euname", "egid", "egname",
            "ruid", "runame", "rgid", "rgname", "sid", "dev", "addr"] :
             List String) := by
  intro k hk
  simp [procCredOps, mem_ite_list, dictKeys_logevt_uid,
        dictKeys_logevt_gid] at hk ⊢
  tauto

theorem procIeOps_keys_sub (cfg w ie) :
    ∀ k ∈ dictKeys (procIeOps cfg w ie),
      k ∈ (["fork_time", "image", "ancestors", "exec_time", "exec_pid",
            "path", "md5", "sha1", "sha256", "ident", "teamid", "script"] :
             List String) := by
  intro k hk
  cases ie with
  | none => simp [procIeOps] at hk
  | some i =>
    simp [procIeOps, mem_ite_list] at hk
    rcases hk with ⟨_, rfl⟩ | rfl | hk | ⟨_, hk⟩
    · simp
    · simp
    · have := pie_keys_sub cfg w i k hk
      simp at this ⊢; tauto
    · rcases hk with rfl | hk
      · simp
      · have := ancestors_keys_sub cfg w i.prev k hk
        simp at this ⊢; tauto

theorem logevt_process_keys_sub (cfg w prc ppid ie) :
    ∀ k ∈ dictKeys (logevt_process cfg w prc ppid ie),
      k ∈ (["reconstructed", "pid", "auid", "auname", "euid", "euname",
            "egid", "egname", "ruid", "runame", "rgid", "rgname", "sid",
            "dev", "addr", "fork_time", "image", "ancestors", "exec_time",
            "exec_pid", "path", "md5", "sha1", "sha256", "ident", "teamid",
            "script"] : List String) := by
  intro k hk
  cases prc with
  | none =>
    simp [logevt_process, reconOps, mem_ite_list] at hk
    rcases hk with ⟨_, rfl⟩ | ⟨_, rfl⟩ | hk
    · simp
    · simp
    · refine (by decide :
        (["fork_time", "image", "ancestors", "exec_time", "exec_pid",
          "path", "md5", "sha1", "sha256", "ident", "teamid", "script"] :
            List String) ⊆ _) (procIeOps_keys_sub cfg w ie k hk)
  | some p =>
    simp [logevt_process, reconOps, mem_ite_list] at hk
    rcases hk with ⟨_, rfl⟩ | (⟨_, rfl⟩ | ⟨_, hk⟩) | hk
    · simp
    · simp
    · refine (by decide :
        (["pid", "auid", "auname", "euid", "euname", "egid", "egname",
          "ruid", "runame", "rgid", "rgname", "sid", "dev", "addr"] :
            List String) ⊆ _) (procCredOps_keys_sub cfg w p k hk)
    · refine (by decide :
        (["fork_time", "image", "ancestors", "exec_time", "exec_pid",
          "path", "md5", "sha1", "sha256", "ident", "teamid", "script"] :
            List String) ⊆ _) (procIeOps_keys_sub cfg w ie k hk)

theorem not_mem_of_sub {k : String} {L : List String} {tr : List SinkOp}
    (hsub : ∀ x ∈ dictKeys tr, x ∈ L) (hk : k ∉ L) : k ∉ dictKeys tr :=
  fun h => hk (hsub k h)

/-- C3: for a descriptor that carries hashes, each configured hash field is
present in the object-image and the process-context rendering exactly
unless the platform-hash switch is on AND the binary carries a recognized
trusted-platform (Apple system) signature; with the switch off, the
trust/signature state is irrelevant. -/
theorem c3_platform_hash_rule (cfg : Config) (w : World) (ie : ImageExec)
    (hh : ie.core.flag_hashes = true) :
    (("md5" ∈ dictKeys (logevt_image_exec_image cfg w ie)) ↔
      cfg.hflags_md5 = true ∧
      (cfg.omit_apple_hashes = false ∨ appleSys ie.core.codesign = false)) ∧
    (("sha1" ∈ dictKeys (logevt_image_exec_image cfg w ie)) ↔
      cfg.hflags_sha1 = true ∧
      (cfg.omit_apple_hashes = false ∨ appleSys ie.core.codesign = false)) ∧
    (("sha256" ∈ dictKeys (logevt_image_exec_image cfg w ie)) ↔
      cfg.hflags_sha256 = true ∧
      (cfg.omit_apple_hashes = false ∨ appleSys ie.core.codesign = false)) ∧
    (ie.script = none →
      ((("md5" ∈ dictKeys (logevt_process_image_exec cfg w ie)) ↔
        cfg.hflags_md5 = true ∧
        (cfg.omit_apple_hashes = false ∨ appleSys ie.core.codesign = false)) ∧
       (("sha1" ∈ dictKeys (logevt_process_image_exec cfg w ie)) ↔
        cfg.hflags_sha1 = true ∧
        (cfg.omit_apple_hashes = false ∨ appleSys ie.core.codesign = false)) ∧
       (("sha256" ∈ dictKeys (logevt_process_image_exec cfg w ie)) ↔
        cfg.hflags_sha256 = true ∧
        (cfg.omit_apple_hashes = false ∨
         appleSys ie.core.codesign = false)))) := by
  have hsa1 := not_mem_of_sub (statAttrOps_keys_sub cfg w ie)
    (by decide : ("md5" : String) ∉ _)
  have hsa2 := not_mem_of_sub (statAttrOps_keys_sub cfg w ie)
    (by decide : ("sha1" : String) ∉ _)
  have hsa3 := not_mem_of_sub (statAttrOps_keys_sub cfg w ie)
    (by decide : ("sha256" : String) ∉ _)
  have hso1 := not_mem_of_sub (statOps_keys_sub cfg ie)
    (by decide : ("md5" : String) ∉ _)
  have hso2 := not_mem_of_sub (statOps_keys_sub cfg ie)
    (by decide : ("sha1" : String) ∉ _)
  have hso3 := not_mem_of_sub (statOps_keys_sub cfg ie)
    (by decide : ("sha256" : String) ∉ _)
  have hcs1 := not_mem_of_sub (csOps_keys_sub ie)
    (by decide : ("md5" : String) ∉ _)
  have hcs2 := not_mem_of_sub (csOps_keys_sub ie)
    (by decide : ("sha1" : String) ∉ _)
  have hcs3 := not_mem_of_sub (csOps_keys_sub ie)
    (by decide : ("sha256" : String) ∉ _)
  have hps1 := not_mem_of_sub (pieSigOps_keys_sub ie)
    (by decide : ("md5" : String) ∉ _)
  have hps2 := not_mem_of_sub (pieSigOps_keys_sub ie)
    (by decide : ("sha1" : String) ∉ _)
  have hps3 := not_mem_of_sub (pieSigOps_keys_sub ie)
    (by decide : ("sha256" : String) ∉ _)
  refine ⟨?_, ?_, ?_, fun hscr => ?_⟩
  · cases hcs : ie.core.codesign with
    | none =>
      simp [logevt_image_exec_image, hsa1, hso1, hcs1, hashesOps,
            mem_ite_list, hh, hcs, appleSys]
    | some cs =>
      by_cases ha : cs.is_apple_system <;>
        by_cases ho : cfg.omit_apple_hashes <;>
          simp [logevt_image_exec_image, hsa1, hso1, hcs1, hashesOps,
                mem_ite_list, hh, hcs, appleSys, ha, ho]
  · cases hcs : ie.core.codesign with
    | none =>
      simp [logevt_image_exec_image, hsa2, hso2, hcs2, hashesOps,
            mem_ite_list, hh, hcs, appleSys]
    | some cs =>
      by_cases ha : cs.is_apple_system <;>
        by_cases ho : cfg.omit_apple_hashes <;>
          simp [logevt_image_exec_image, hsa2, hso2, hcs2, hashesOps,
                mem_ite_list, hh, hcs, appleSys, ha, ho]
  · cases hcs : ie.core.codesign with
    | none =>
      simp [logevt_image_exec_image, hsa3, hso3, hcs3, hashesOps,
            mem_ite_list, hh, hcs, appleSys]
    | some cs =>
      by_cases ha : cs.is_apple_system <;>
        by_cases ho : cfg.omit_apple_hashes <;>
          simp [logevt_image_exec_image, hsa3, hso3, hcs3, hashesOps,
                mem_ite_list, hh, hcs, appleSys, ha, ho]
  · have hscr0 : dictKeys (pieScriptOps cfg ie) = [] := by
      simp [pieScriptOps, hscr]
    refine ⟨?_, ?_, ?_⟩ <;> cases hcs : ie.core.codesign with
    | none =>
      simp [logevt_process_image_exec, hps1, hps2, hps3, hscr0, hashesOps,
            mem_ite_list, hh, hcs, appleSys]
    | some cs =>
      by_cases ha : cs.is_apple_system <;>
        by_cases ho : cfg.omit_apple_hashes <;>
          simp [logevt_process_image_exec, hps1, hps2, hps3, hscr0,
                hashesOps, mem_ite_list, hh, hcs, appleSys, ha, ho]

/-- A hash-carrying, script-free image-exec descriptor. -/
def ie0 : ImageExec := ImageExec.mk core0 none none

/-- Witness for C3 at concrete inputs. -/
theorem c3_platform_hash_rule_witness :
    (("md5" ∈ dictKeys (logevt_image_exec_image cfg0 w0 ie0)) ↔
      cfg0.hflags_md5 = true ∧
      (cfg0.omit_apple_hashes = false ∨ appleSys ie0.core.codesign = false)) ∧
    (("sha256" ∈ dictKeys (logevt_process_image_exec cfg0 w0 ie0)) ↔
      cfg0.hflags_sha256 = true ∧
      (cfg0.omit_apple_hashes = false ∨
       appleSys ie0.core.codesign = false)) :=
  ⟨(c3_platform_hash_rule cfg0 w0 ie0 rfl).1,
   ((c3_platform_hash_rule cfg0 w0 ie0 rfl).2.2.2 rfl).2.2⟩

/-- C4: the object-image rendering carries the full signature block (the
`signature` verdict always, plus origin/cdhash/ident/teamid/certcn exactly
when present); the process-context rendering never carries a `signature`
key and yields `ident`/`teamid` exactly when a positively-validated
signature with those fields is attached. -/
theorem c4_signature_renderings (cfg : Config) (w : World) (ie : ImageExec) :
    (("signature" ∈ dictKeys (logevt_image_exec_image cfg w ie)) ↔
      ie.core.codesign.isSome) ∧
    (∀ cs, ie.core.codesign = some cs →
      (("origin" ∈ dictKeys (logevt_image_exec_image cfg w ie)) ↔
        cs.origin ≠ 0) ∧
      (("cdhash" ∈ dictKeys (logevt_image_exec_image cfg w ie)) ↔
        cs.cdhash.isSome) ∧
      (("ident" ∈ dictKeys (logevt_image_exec_image cfg w ie)) ↔
        cs.ident.isSome) ∧
      (("teamid" ∈ dictKeys (logevt_image_exec_image cfg w ie)) ↔
        cs.teamid.isSome) ∧
      (("certcn" ∈ dictKeys (logevt_image_exec_image cfg w ie)) ↔
        cs.certcn.isSome)) ∧
    ("signature" ∉ dictKeys (logevt_process_image_exec cfg w ie)) ∧
    (("ident" ∈ dictKeys (logevt_process_image_exec cfg w ie)) ↔
      ∃ cs, ie.core.codesign = some cs ∧ cs.is_good = true ∧
        cs.ident.isSome) ∧
    (("teamid" ∈ dictKeys (logevt_process_image_exec cfg w ie)) ↔
      ∃ cs, ie.core.codesign = some cs ∧ cs.is_good = true ∧
        cs.teamid.isSome) := by
  have nsaS : ("signature" : String) ∉ dictKeys (statAttrOps cfg w ie) :=
    not_mem_of_sub (statAttrOps_keys_sub cfg w ie) (by decide)
  have nsaO : ("origin" : String) ∉ dictKeys (statAttrOps cfg w ie) :=
    not_mem_of_sub (statAttrOps_keys_sub cfg w ie) (by decide)
  have nsaC : ("cdhash" : String) ∉ dictKeys (statAttrOps cfg w ie) :=
    not_mem_of_sub (statAttrOps_keys_sub cfg w ie) (by decide)
  have nsaI : ("ident" : String) ∉ dictKeys (statAttrOps cfg w ie) :=
    not_mem_of_sub (statAttrOps_keys_sub cfg w ie) (by decide)
  have nsaT : ("teamid" : String) ∉ dictKeys (statAttrOps cfg w ie) :=
    not_mem_of_sub (statAttrOps_keys_sub cfg w ie) (by decide)
  have nsaN : ("certcn" : String) ∉ dictKeys (statAttrOps cfg w ie) :=
    not_mem_of_sub (statAttrOps_keys_sub cfg w ie) (by decide)
  have nsoS : ("signature" : String) ∉ dictKeys (statOps cfg ie) :=
    not_mem_of_sub (statOps_keys_sub cfg ie) (by decide)
  have nsoO : ("origin" : String) ∉ dictKeys (statOps cfg ie) :=
    not_mem_of_sub (statOps_keys_sub cfg ie) (by decide)
  have nsoC : ("cdhash" : String) ∉ dictKeys (statOps cfg ie) :=
    not_mem_of_sub (statOps_keys_sub cfg ie) (by decide)
  have nsoI : ("ident" : String) ∉ dictKeys (statOps cfg ie) :=
    not_mem_of_sub (statOps_keys_sub cfg ie) (by decide)
  have nsoT : ("teamid" : String) ∉ dictKeys (statOps cfg ie) :=
    not_mem_of_sub (statOps_keys_sub cfg ie) (by decide)
  have nsoN : ("certcn" : String) ∉ dictKeys (statOps cfg ie) :=
    not_mem_of_sub (statOps_keys_sub cfg ie) (by decide)
  have nhaS : ("signature" : String) ∉ dictKeys (hashesOps cfg ie) :=
    not_mem_of_sub (hashesOps_keys_sub cfg ie) (by decide)
  have nhaO : ("origin" : String) ∉ dictKeys (hashesOps cfg ie) :=
    not_mem_of_sub (hashesOps_keys_sub cfg ie) (by decide)
  have nhaC : ("cdhash" : String) ∉ dictKeys (hashesOps cfg ie) :=
    not_mem_of_sub (hashesOps_keys_sub cfg ie) (by decide)
  have nhaI : ("ident" : String) ∉ dictKeys (hashesOps cfg ie) :=
    not_mem_of_sub (hashesOps_keys_sub cfg ie) (by decide)
  have nhaT : ("teamid" : String) ∉ dictKeys (hashesOps cfg ie) :=
    not_mem_of_sub (hashesOps_keys_sub cfg ie) (by decide)
  have nhaN : ("certcn" : String) ∉ dictKeys (hashesOps cfg ie) :=
    not_mem_of_sub (hashesOps_keys_sub cfg ie) (by decide)
  have npsI : ("ident" : String) ∉ dictKeys (pieScriptOps cfg ie) :=
    not_mem_of_sub (pieScriptOps_keys_sub cfg ie) (by decide)
  have npsT : ("teamid" : String) ∉ dictKeys (pieScriptOps cfg ie) :=
    not_mem_of_sub (pieScriptOps_keys_sub cfg ie) (by decide)
  refine ⟨?_, fun cs hcs => ?_, ?_, ?_, ?_⟩
  · cases hcs : ie.core.codesign with
    | none =>
      simp [logevt_image_exec_image, nsaS, nsoS, nhaS, csOps, hcs]
    | some cs =>
      simp [logevt_image_exec_image, nsaS, nsoS, nhaS, csOps, hcs]
  · refine ⟨?_, ?_, ?_, ?_, ?_⟩ <;>
      cases h1 : cs.cdhash <;> cases h2 : cs.ident <;> cases h3 : cs.teamid <;>
        cases h4 : cs.certcn <;>
          simp [logevt_image_exec_image, nsaS, nsaO, nsaC, nsaI, nsaT, nsaN,
                nsoS, nsoO, nsoC, nsoI, nsoT, nsoN, nhaS, nhaO, nhaC, nhaI,
                nhaT, nhaN, csOps, hcs, h1, h2, h3, h4, mem_ite_list]
  · exact not_mem_of_sub (pie_keys_sub cfg w ie) (by decide)
  · cases hcs : ie.core.codesign with
    | none =>
      simp [logevt_process_image_exec, nhaI, npsI, pieSigOps, hcs]
    | some cs =>
      by_cases hg : cs.is_good <;> cases h2 : cs.ident <;>
        cases h3 : cs.teamid <;>
          simp [logevt_process_image_exec, nhaI, npsI, pieSigOps, hcs, hg,
                h2, h3, mem_ite_list]
  · cases hcs : ie.core.codesign with
    | none =>
      simp [logevt_process_image_exec, nhaT, npsT, pieSigOps, hcs]
    | some cs =>
      by_cases hg : cs.is_good <;> cases h2 : cs.ident <;>
        cases h3 : cs.teamid <;>
          simp [logevt_process_image_exec, nhaT, npsT, pieSigOps, hcs, hg,
                h2, h3, mem_ite_list]

/-- A concrete positively-validated signature. -/
def cs0 : Codesign :=
  { result_s := "good", origin := 1, origin_s := "system",
    cdhash := some [1, 2], cdhashsz := 2, ident := some "com.apple.ls",
    teamid := none, certcn := some "Software Signing",
    is_apple_system := true, is_good := true }

/-- A concrete signed, script-free image-exec descriptor. -/
def ieSig : ImageExec :=
  ImageExec.mk { core0 with codesign := some cs0 } none none

/-- Witness for C4 at concrete inputs. -/
theorem c4_signature_renderings_witness :
    (("signature" ∈ dictKeys (logevt_image_exec_image cfg0 w0 ieSig)) ↔
      ieSig.core.codesign.isSome) ∧
    (("ident" ∈ dictKeys (logevt_image_exec_image cfg0 w0 ieSig)) ↔
      cs0.ident.isSome) ∧
    ("signature" ∉ dictKeys (logevt_process_image_exec cfg0 w0 ieSig)) ∧
    (("ident" ∈ dictKeys (logevt_process_image_exec cfg0 w0 ieSig)) ↔
      ∃ cs, ieSig.core.codesign = some cs ∧ cs.is_good = true ∧
        cs.ident.isSome) :=
  ⟨(c4_signature_renderings cfg0 w0 ieSig).1,
   ((c4_signature_renderings cfg0 w0 ieSig).2.1 cs0 rfl).2.2.1,
   (c4_signature_renderings cfg0 w0 ieSig).2.2.1,
   (c4_signature_renderings cfg0 w0 ieSig).2.2.2.1⟩

theorem logevt_process_image_exec_congr (cfg cfg' : Config) (w : World)
    (h1 : cfg'.hflags_md5 = cfg.hflags_md5)
    (h2 : cfg'.hflags_sha1 = cfg.hflags_sha1)
    (h3 : cfg'.hflags_sha256 = cfg.hflags_sha256)
    (h4 : cfg'.omit_apple_hashes = cfg.omit_apple_hashes) (ie : ImageExec) :
    logevt_process_image_exec cfg' w ie = logevt_process_image_exec cfg w ie := by
  simp [logevt_process_image_exec, hashesOps, pieScriptOps, h1, h2, h3, h4]

theorem ancestorsLoop_congr (cfg cfg' : Config) (w : World)
    (h1 : cfg'.hflags_md5 = cfg.hflags_md5)
    (h2 : cfg'.hflags_sha1 = cfg.hflags_sha1)
    (h3 : cfg'.hflags_sha256 = cfg.hflags_sha256)
    (h4 : cfg'.omit_apple_hashes = cfg.omit_apple_hashes) :
    ∀ (pie : Option ImageExec) (r : Nat),
      ancestorsLoop cfg' w pie r = ancestorsLoop cfg w pie r
  | none, _ => by simp [ancestorsLoop]
  | some (ImageExec.mk c s p), r => by
    cases r with
    | zero => simp [ancestorsLoop]
    | succ r' =>
      by_cases h : 0 < c.pid <;>
        simp [ancestorsLoop, h,
              logevt_process_image_exec_congr cfg cfg' w h1 h2 h3 h4,
              ancestorsLoop_congr cfg cfg' w h1 h2 h3 h4 p r']

theorem procIeOps_congr (cfg cfg' : Config) (w : World)
    (h1 : cfg'.hflags_md5 = cfg.hflags_md5)
    (h2 : cfg'.hflags_sha1 = cfg.hflags_sha1)
    (h3 : cfg'.hflags_sha256 = cfg.hflags_sha256)
    (h4 : cfg'.omit_apple_hashes = cfg.omit_apple_hashes)
    (h5 : cfg'.ancestors = cfg.ancestors) (ie : Option ImageExec) :
    procIeOps cfg' w ie = procIeOps cfg w ie := by
  cases ie with
  | none => simp [procIeOps]
  | some i =>
    simp [procIeOps, logevt_process_image_exec_ancestors, h5,
          logevt_process_image_exec_congr cfg cfg' w h1 h2 h3 h4,
          ancestorsLoop_congr cfg cfg' w h1 h2 h3 h4]

set_option maxHeartbeats 1000000 in
/-- C6: each redaction switch (mode, size, mtime, ctime, btime,
secondary-group, session-id), toggled with the underlying data present,
exactly inserts or removes its own field(s) and leaves every other emitted
op of the rendering unchanged. -/
theorem c6_redaction_frame (cfg : Config) (w : World) (ie : ImageExec)
    (p : AuditProc) (ppid : Int) (ieo : Option ImageExec) :
    ((ie.core.flag_stat = true ∨ ie.core.flag_attr = true) →
      ∃ pre post,
        logevt_image_exec_image { cfg with omit_mode := false } w ie =
          pre ++ [SinkOp.dict_item "mode",
                  SinkOp.value_uint_oct ie.core.stat_mode] ++ post ∧
        logevt_image_exec_image { cfg with omit_mode := true } w ie =
          pre ++ post ∧
        "mode" ∉ dictKeys (pre ++ post)) ∧
    (ie.core.flag_stat = true →
      ∃ pre post,
        logevt_image_exec_image { cfg with omit_size := false } w ie =
          pre ++ [SinkOp.dict_item "size",
                  SinkOp.value_uint ie.core.stat_size] ++ post ∧
        logevt_image_exec_image { cfg with omit_size := true } w ie =
          pre ++ post ∧
        "size" ∉ dictKeys (pre ++ post)) ∧
    (ie.core.flag_stat = true →
      ∃ pre post,
        logevt_image_exec_image { cfg with omit_mtime := false } w ie =
          pre ++ [SinkOp.dict_item "mtime",
                  SinkOp.value_timespec ie.core.stat_mtime] ++ post ∧
        logevt_image_exec_image { cfg with omit_mtime := true } w ie =
          pre ++ post ∧
        "mtime" ∉ dictKeys (pre ++ post)) ∧
    (ie.core.flag_stat = true →
      ∃ pre post,
        logevt_image_exec_image { cfg with omit_ctime := false } w ie =
          pre ++ [SinkOp.dict_item "ctime",
                  SinkOp.value_timespec ie.core.stat_ctime] ++ post ∧
        logevt_image_exec_image { cfg with omit_ctime := true } w ie =
          pre ++ post ∧
        "ctime" ∉ dictKeys (pre ++ post)) ∧
    (ie.core.flag_stat = true →
      ∃ pre post,
        logevt_image_exec_image { cfg with omit_btime := false } w ie =
          pre ++ [SinkOp.dict_item "btime",
                  SinkOp.value_timespec ie.core.stat_btime] ++ post ∧
        logevt_image_exec_image { cfg with omit_btime := true } w ie =
          pre ++ post ∧
        "btime" ∉ dictKeys (pre ++ post)) ∧
    ((ie.core.flag_stat = true ∨ ie.core.flag_attr = true) →
      ∃ pre post,
        logevt_image_exec_image { cfg with omit_groups := false } w ie =
          pre ++ logevt_gid cfg w ie.core.stat_gid "gid" "gname" ++ post ∧
        logevt_image_exec_image { cfg with omit_groups := true } w ie =
          pre ++ post ∧
        "gid" ∉ dictKeys (pre ++ post) ∧ "gname" ∉ dictKeys (pre ++ post)) ∧
    (¬ 0 < ppid →
      ∃ pre post,
        logevt_process { cfg with omit_sid := false } w (some p) ppid ieo =
          pre ++ [SinkOp.dict_item "sid", SinkOp.value_uint p.sid] ++ post ∧
        logevt_process { cfg with omit_sid := true } w (some p) ppid ieo =
          pre ++ post ∧
        "sid" ∉ dictKeys (pre ++ post)) := by
  have nso := fun k (hk : k ∉ (["size", "mtime", "ctime", "btime"] :
      List String)) => not_mem_of_sub (statOps_keys_sub cfg ie) hk
  have nha := fun k (hk : k ∉ (["md5", "sha1", "sha256"] : List String)) =>
    not_mem_of_sub (hashesOps_keys_sub cfg ie) hk
  have ncs := fun k (hk : k ∉ (["signature", "origin", "cdhash", "ident",
      "teamid", "certcn"] : List String)) =>
    not_mem_of_sub (csOps_keys_sub ie) hk
  have nsa := fun k (hk : k ∉ (["mode", "uid", "uname", "gid", "gname"] :
      List String)) => not_mem_of_sub (statAttrOps_keys_sub cfg w ie) hk
  refine ⟨fun h => ?_, fun h => ?_, fun h => ?_, fun h => ?_, fun h => ?_,
          fun h => ?_, fun h => ?_⟩
  · refine ⟨[SinkOp.dict_begin, SinkOp.dict_item "path",
             SinkOp.value_string ie.core.path],
            logevt_uid cfg w ie.core.stat_uid "uid" "uname" ++
            (if !cfg.omit_groups then
              logevt_gid cfg w ie.core.stat_gid "gid" "gname" else []) ++
            statOps cfg ie ++ hashesOps cfg ie ++ csOps ie ++
            [SinkOp.dict_end], ?_, ?_, ?_⟩
    · rcases h with h | h <;>
        simp [logevt_image_exec_image, statAttrOps, statOps, hashesOps,
              logevt_uid, logevt_gid, h]
    · rcases h with h | h <;>
        simp [logevt_image_exec_image, statAttrOps, statOps, hashesOps,
              logevt_uid, logevt_gid, h]
    · simp [dictKeys_logevt_uid, dictKeys_logevt_gid, mem_ite_list,
            nso "mode" (by decide), nha "mode" (by decide),
            ncs "mode" (by decide)]
  · refine ⟨[SinkOp.dict_begin, SinkOp.dict_item "path",
             SinkOp.value_string ie.core.path] ++ statAttrOps cfg w ie,
            (if !cfg.omit_mtime then
              [SinkOp.dict_item "mtime",
               SinkOp.value_timespec ie.core.stat_mtime] else []) ++
            (if !cfg.omit_ctime then
              [SinkOp.dict_item "ctime",
               SinkOp.value_timespec ie.core.stat_ctime] else []) ++
            (if !cfg.omit_btime then
              [SinkOp.dict_item "btime",
               SinkOp.value_timespec ie.core.stat_btime] else []) ++
            hashesOps cfg ie ++ csOps ie ++ [SinkOp.dict_end], ?_, ?_, ?_⟩
    · simp [logevt_image_exec_image, statAttrOps, statOps, hashesOps,
            logevt_uid, logevt_gid, h]
    · simp [logevt_image_exec_image, statAttrOps, statOps, hashesOps,
            logevt_uid, logevt_gid, h]
    · simp [mem_ite_list, nsa "size" (by decide), nha "size" (by decide),
            ncs "size" (by decide)]
  · refine ⟨[SinkOp.dict_begin, SinkOp.dict_item "path",
             SinkOp.value_string ie.core.path] ++ statAttrOps cfg w ie ++
            (if !cfg.omit_size then
              [SinkOp.dict_item "size",
               SinkOp.value_uint ie.core.stat_size] else []),
            (if !cfg.omit_ctime then
              [SinkOp.dict_item "ctime",
               SinkOp.value_timespec ie.core.stat_ctime] else []) ++
            (if !cfg.omit_btime then
              [SinkOp.dict_item "btime",
               SinkOp.value_timespec ie.core.stat_btime] else []) ++
            hashesOps cfg ie ++ csOps ie ++ [SinkOp.dict_end], ?_, ?_, ?_⟩
    · simp [logevt_image_exec_image, statAttrOps, statOps, hashesOps,
            logevt_uid, logevt_gid, h]
    · simp [logevt_image_exec_image, statAttrOps, statOps, hashesOps,
            logevt_uid, logevt_gid, h]
    · simp [mem_ite_list, nsa "mtime" (by decide), nha "mtime" (by decide),
            ncs "mtime" (by decide)]
  · refine ⟨[SinkOp.dict_begin, SinkOp.dict_item "path",
             SinkOp.value_string ie.core.path] ++ statAttrOps cfg w ie ++
            (if !cfg.omit_size then
              [SinkOp.dict_item "size",
               SinkOp.value_uint ie.core.stat_size] else []) ++
            (if !cfg.omit_mtime then
              [SinkOp.dict_item "mtime",
               SinkOp.value_timespec ie.core.stat_mtime] else []),
            (if !cfg.omit_btime then
              [SinkOp.dict_item "btime",
               SinkOp.value_timespec ie.core.stat_btime] else []) ++
            hashesOps cfg ie ++ csOps ie ++ [SinkOp.dict_end], ?_, ?_, ?_⟩
    · simp [logevt_image_exec_image, statAttrOps, statOps, hashesOps,
            logevt_uid, logevt_gid, h]
    · simp [logevt_image_exec_image, statAttrOps, statOps, hashesOps,
            logevt_uid, logevt_gid, h]
    · simp [mem_ite_list, nsa "ctime" (by decide), nha "ctime" (by decide),
            ncs "ctime" (by decide)]
  · refine ⟨[SinkOp.dict_begin, SinkOp.dict_item "path",
             SinkOp.value_string ie.core.path] ++ statAttrOps cfg w ie ++
            (if !cfg.omit_size then
              [SinkOp.dict_item "size",
               SinkOp.value_uint ie.core.stat_size] else []) ++
            (if !cfg.omit_mtime then
              [SinkOp.dict_item "mtime",
               SinkOp.value_timespec ie.core.stat_mtime] else []) ++
            (if !cfg.omit_ctime then
              [SinkOp.dict_item "ctime",
               SinkOp.value_timespec ie.core.stat_ctime] else []),
            hashesOps cfg ie ++ csOps ie ++ [SinkOp.dict_end], ?_, ?_, ?_⟩
    · simp [logevt_image_exec_image, statAttrOps, statOps, hashesOps,
            logevt_uid, logevt_gid, h]
    · simp [logevt_image_exec_image, statAttrOps, statOps, hashesOps,
            logevt_uid, logevt_gid, h]
    · simp [mem_ite_list, nsa "btime" (by decide), nha "btime" (by decide),
            ncs "btime" (by decide)]
  · refine ⟨[SinkOp.dict_begin, SinkOp.dict_item "path",
             SinkOp.value_string ie.core.path] ++
            (if !cfg.omit_mode then
              [SinkOp.dict_item "mode",
               SinkOp.value_uint_oct ie.core.stat_mode] else []) ++
            logevt_uid cfg w ie.core.stat_uid "uid" "uname",
            statOps cfg ie ++ hashesOps cfg ie ++ csOps ie ++
            [SinkOp.dict_end], ?_, ?_, ?_, ?_⟩
    · rcases h with h | h <;>
        simp [logevt_image_exec_image, statAttrOps, statOps, hashesOps,
              logevt_uid, logevt_gid, h]
    · rcases h with h | h <;>
        simp [logevt_image_exec_image, statAttrOps, statOps, hashesOps,
              logevt_uid, logevt_gid, h]
    · simp [dictKeys_logevt_uid, mem_ite_list, nso "gid" (by decide),
            nha "gid" (by decide), ncs "gid" (by decide)]
    · simp [dictKeys_logevt_uid, mem_ite_list, nso "gname" (by decide),
            nha "gname" (by decide), ncs "gname" (by decide)]
  · refine ⟨SinkOp.dict_begin ::
            (reconOps ieo ++
             ([SinkOp.dict_item "pid", SinkOp.value_int p.pid] ++
              logevt_uid cfg w p.auid "auid" "auname" ++
              logevt_uid cfg w p.euid "euid" "euname" ++
              (if !cfg.omit_groups then
                logevt_gid cfg w p.egid "egid" "egname" else []) ++
              logevt_uid cfg w p.ruid "ruid" "runame" ++
              (if !cfg.omit_groups then
                logevt_gid cfg w p.rgid "rgid" "rgname" else []))),
            (if p.dev ≠ -1 then
              [SinkOp.dict_item "dev", SinkOp.value_ttydev p.dev] else []) ++
            (if !p.addr.empty then
              [SinkOp.dict_item "addr",
               SinkOp.value_string p.addr.str] else []) ++
            procIeOps cfg w ieo ++ [SinkOp.dict_end], ?_, ?_, ?_⟩
    · simp [logevt_process, procCredOps, reconOps, logevt_uid, logevt_gid, h,
            procIeOps_congr cfg { cfg with omit_sid := false } w rfl rfl rfl
              rfl rfl ieo]
    · simp [logevt_process, procCredOps, reconOps, logevt_uid, logevt_gid, h,
            procIeOps_congr cfg { cfg with omit_sid := true } w rfl rfl rfl
              rfl rfl ieo]
    · have npi := fun k (hk : k ∉ (["fork_time", "image", "ancestors",
          "exec_time", "exec_pid", "path", "md5", "sha1", "sha256", "ident",
          "teamid", "script"] : List String)) =>
        not_mem_of_sub (procIeOps_keys_sub cfg w ieo) hk
      simp [dictKeys_logevt_uid, dictKeys_logevt_gid, reconOps,
            mem_ite_list, npi "sid" (by decide)]

/-- Witness for C6 at concrete inputs (mode switch on an image rendering,
session-id switch on a process rendering). -/
theorem c6_redaction_frame_witness :
    (∃ pre post,
      logevt_image_exec_image { cfg0 with omit_mode := false } w0 ie0 =
        pre ++ [SinkOp.dict_item "mode",
                SinkOp.value_uint_oct ie0.core.stat_mode] ++ post ∧
      logevt_image_exec_image { cfg0 with omit_mode := true } w0 ie0 =
        pre ++ post ∧
      "mode" ∉ dictKeys (pre ++ post)) ∧
    (∃ pre post,
      logevt_process { cfg0 with omit_sid := false } w0 (some proc0) 0
          (some ie0) =
        pre ++ [SinkOp.dict_item "sid", SinkOp.value_uint proc0.sid] ++
        post ∧
      logevt_process { cfg0 with omit_sid := true } w0 (some proc0) 0
          (some ie0) =
        pre ++ post ∧
      "sid" ∉ dictKeys (pre ++ post)) :=
  ⟨(c6_redaction_frame cfg0 w0 ie0 proc0 0 (some ie0)).1 (Or.inl rfl),
   (c6_redaction_frame cfg0 w0 ie0 proc0 0 (some ie0)).2.2.2.2.2.2
     (by decide)⟩

/-- C7: with a positive object pid, `logevt_process` ignores the process
descriptor entirely (same trace for any descriptor), emits the pid, and no
credential field (auid/euid/egid/ruid/rgid with names, session id,
terminal, address); with no positive object pid and a full descriptor it
emits pid and the credential block `procCredOps` (ids through the identity
resolver subject to the redaction switches, then sid, terminal, address),
followed by the attached-image part. -/
theorem c7_process_paths (cfg : Config) (w : World) (prc : Option AuditProc)
    (p : AuditProc) (ppid : Int) (ie : Option ImageExec) :
    (0 < ppid →
      logevt_process cfg w prc ppid ie =
        SinkOp.dict_begin ::
        (reconOps ie ++
         ([SinkOp.dict_item "pid", SinkOp.value_int ppid] ++
          (procIeOps cfg w ie ++ [SinkOp.dict_end]))) ∧
      ∀ k ∈ (["auid", "auname", "euid", "euname", "egid", "egname", "ruid",
              "runame", "rgid", "rgname", "sid", "dev", "addr"] :
               List String),
        k ∉ dictKeys (logevt_process cfg w prc ppid ie)) ∧
    (¬ 0 < ppid →
      logevt_process cfg w (some p) ppid ie =
        SinkOp.dict_begin ::
        (reconOps ie ++
         (procCredOps cfg w p ++
          (procIeOps cfg w ie ++ [SinkOp.dict_end])))) := by
  refine ⟨fun h => ?_, fun h => ?_⟩
  · have heq : logevt_process cfg w prc ppid ie =
        SinkOp.dict_begin ::
        (reconOps ie ++
         ([SinkOp.dict_item "pid", SinkOp.value_int ppid] ++
          (procIeOps cfg w ie ++ [SinkOp.dict_end]))) := by
      cases prc <;> simp [logevt_process, h]
    refine ⟨heq, fun k hk hmem => ?_⟩
    rw [heq] at hmem
    simp [reconOps, mem_ite_list] at hmem
    rcases hmem with ⟨_, rfl⟩ | rfl | hmem
    · exact absurd hk (by decide)
    · exact absurd hk (by decide)
    · exact (by decide : ∀ x ∈ (["auid", "auname", "euid", "euname", "egid",
        "egname", "ruid", "runame", "rgid", "rgname", "sid", "dev", "addr"] :
          List String),
        x ∉ (["fork_time", "image", "ancestors", "exec_time", "exec_pid",
              "path", "md5", "sha1", "sha256", "ident", "teamid", "script"] :
               List String)) k hk (procIeOps_keys_sub cfg w ie k hmem)
  · simp [logevt_process, h]

/-- Witness for C7 at concrete inputs. -/
theorem c7_process_paths_witness :
    logevt_process cfg0 w0 (some proc0) 5 (some ie0) =
      SinkOp.dict_begin ::
      (reconOps (some ie0) ++
       ([SinkOp.dict_item "pid", SinkOp.value_int 5] ++
        (procIeOps cfg0 w0 (some ie0) ++ [SinkOp.dict_end]))) ∧
    ("auid" ∉ dictKeys (logevt_process cfg0 w0 (some proc0) 5 (some ie0))) ∧
    logevt_process cfg0 w0 (some proc0) 0 (some ie0) =
      SinkOp.dict_begin ::
      (reconOps (some ie0) ++
       (procCredOps cfg0 w0 proc0 ++
        (procIeOps cfg0 w0 (some ie0) ++ [SinkOp.dict_end]))) :=
  ⟨((c7_process_paths cfg0 w0 (some proc0) proc0 5 (some ie0)).1
      (by decide)).1,
   ((c7_process_paths cfg0 w0 (some proc0) proc0 5 (some ie0)).1
      (by decide)).2 "auid" (by decide),
   (c7_process_paths cfg0 w0 (some proc0) proc0 0 (some ie0)).2
     (by decide)⟩

/-- C10: a process rendering whose attached image-exec was reconstructed
from a bare pid (EIFLAG_PIDLOOKUP) starts its dictionary with
`reconstructed: true`; `logevt_image_exec` emits the same pair right after
the envelope header; with the flag clear the key is absent (from the whole
process rendering, and from the image-exec record up to the subject
sub-dictionary). -/
theorem c10_reconstructed_field (cfg : Config) (w : World)
    (prc : Option AuditProc) (ppid : Int) (ie : Option ImageExec)
    (i : ImageExec) :
    (iePidlookup ie = true →
      ∃ rest, logevt_process cfg w prc ppid ie =
        SinkOp.dict_begin :: SinkOp.dict_item "reconstructed" ::
        SinkOp.value_bool true :: rest) ∧
    (iePidlookup ie = false →
      "reconstructed" ∉ dictKeys (logevt_process cfg w prc ppid ie)) ∧
    (i.core.flag_pidlookup = true →
      ∃ rest, logevt_image_exec cfg w i =
        logevt_header i.core.hdr ++
        (SinkOp.dict_item "reconstructed" :: SinkOp.value_bool true ::
         rest)) ∧
    (i.core.flag_pidlookup = false →
      ∃ pre subj, logevt_image_exec cfg w i =
        pre ++ (SinkOp.dict_item "subject" :: subj) ∧
        "reconstructed" ∉ dictKeys pre) := by
  refine ⟨fun h => ?_, fun h => ?_, fun h => ?_, fun h => ?_⟩
  · refine ⟨(if 0 < ppid then
        [SinkOp.dict_item "pid", SinkOp.value_int ppid]
      else
        match prc with
        | some p => procCredOps cfg w p
        | none => []) ++ (procIeOps cfg w ie ++ [SinkOp.dict_end]), ?_⟩
    cases prc <;> simp [logevt_process, reconOps, h]
  · intro hmem
    have npi := not_mem_of_sub (procIeOps_keys_sub cfg w ie)
      (by decide : ("reconstructed" : String) ∉ _)
    cases prc with
    | none =>
      simp [logevt_process, reconOps, h, mem_ite_list, npi] at hmem
    | some p =>
      have npc := not_mem_of_sub (procCredOps_keys_sub cfg w p)
        (by decide : ("reconstructed" : String) ∉ _)
      simp [logevt_process, reconOps, h, mem_ite_list, npi, npc] at hmem
  · refine ⟨(match i.core.argv with
      | some args =>
        SinkOp.dict_item "argv" :: SinkOp.list_begin ::
        (args.flatMap
          (fun a => [SinkOp.list_item "arg", SinkOp.value_string a]) ++
         [SinkOp.list_end])
      | none => []) ++
      (match i.core.envv with
       | some vars =>
         SinkOp.dict_item "env" :: SinkOp.list_begin ::
         (vars.flatMap
           (fun v => [SinkOp.list_item "var", SinkOp.value_string v]) ++
          [SinkOp.list_end])
       | none => []) ++
      (match i.core.cwd with
       | some c => [SinkOp.dict_item "cwd", SinkOp.value_string c]
       | none => []) ++
      (SinkOp.dict_item "image" :: logevt_image_exec_image cfg w i) ++
      (match i.script with
       | some s => SinkOp.dict_item "script" :: logevt_image_exec_image cfg w s
       | none => []) ++
      (SinkOp.dict_item "subject" ::
       logevt_process cfg w
         (if i.core.flag_pidlookup then none else some i.core.subject) 0
         i.prev) ++
      logevt_footer, ?_⟩
    simp [logevt_image_exec, h]
  · refine ⟨logevt_header i.core.hdr ++
      ((match i.core.argv with
        | some args =>
          SinkOp.dict_item "argv" :: SinkOp.list_begin ::
          (args.flatMap
            (fun a => [SinkOp.list_item "arg", SinkOp.value_string a]) ++
           [SinkOp.list_end])
        | none => []) ++
       (match i.core.envv with
        | some vars =>
          SinkOp.dict_item "env" :: SinkOp.list_begin ::
          (vars.flatMap
            (fun v => [SinkOp.list_item "var", SinkOp.value_string v]) ++
           [SinkOp.list_end])
        | none => []) ++
       (match i.core.cwd with
        | some c => [SinkOp.dict_item "cwd", SinkOp.value_string c]
        | none => []) ++
       (SinkOp.dict_item "image" :: logevt_image_exec_image cfg w i) ++
       (match i.script with
        | some s =>
          SinkOp.dict_item "script" :: logevt_image_exec_image cfg w s
        | none => [])),
      logevt_process cfg w
        (if i.core.flag_pidlookup then none else some i.core.subject) 0
        i.prev ++ logevt_footer, ?_, ?_⟩
    · simp [logevt_image_exec, h]
    · have no1 := not_mem_of_sub (obj_keys_sub cfg w i)
        (by decide : ("reconstructed" : String) ∉ _)
      intro hmem
      cases h1 : i.core.argv <;> cases h2 : i.core.envv <;>
        cases h3 : i.core.cwd <;> cases h4 : i.script <;>
          simp [logevt_header, h1, h2, h3, h4, mem_ite_list, no1,
                dictKeys_flatMap_pair] at hmem <;>
            exact absurd hmem (not_mem_of_sub (obj_keys_sub cfg w _)
              (by decide))

/-- A descriptor reconstructed from a bare pid (EIFLAG_PIDLOOKUP set). -/
def iePl : ImageExec :=
  ImageExec.mk { core0 with flag_pidlookup := true } none none

/-- Witness for C10 at concrete inputs. -/
theorem c10_reconstructed_field_witness :
    (∃ rest, logevt_process cfg0 w0 (some proc0) 0 (some iePl) =
      SinkOp.dict_begin :: SinkOp.dict_item "reconstructed" ::
      SinkOp.value_bool true :: rest) ∧
    ("reconstructed" ∉ dictKeys (logevt_process cfg0 w0 (some proc0) 0
      (some ie0))) ∧
    (∃ rest, logevt_image_exec cfg0 w0 iePl =
      logevt_header iePl.core.hdr ++
      (SinkOp.dict_item "reconstructed" :: SinkOp.value_bool true ::
       rest)) ∧
    (∃ pre subj, logevt_image_exec cfg0 w0 ie0 =
      pre ++ (SinkOp.dict_item "subject" :: subj) ∧
      "reconstructed" ∉ dictKeys pre) :=
  ⟨(c10_reconstructed_field cfg0 w0 (some proc0) 0 (some iePl) iePl).1 rfl,
   (c10_reconstructed_field cfg0 w0 (some proc0) 0 (some ie0) ie0).2.1 rfl,
   (c10_reconstructed_field cfg0 w0 (some proc0) 0 (some iePl) iePl).2.2.1
     rfl,
   (c10_reconstructed_field cfg0 w0 (some proc0) 0 (some ie0) ie0).2.2.2
     rfl⟩

theorem runSink_spec (fails : SinkOp → Bool) :
    ∀ (ops : List SinkOp) (st : SinkState),
      (runSink fails ops st).trace = st.trace ++ ops ∧
      (runSink fails ops st).err = (st.err || ops.any fails)
  | [], st => by simp [runSink]
  | op :: ops, st => by
    have ih := runSink_spec fails ops
      { trace := st.trace ++ [op], err := st.err || fails op }
    simp [runSink, ih, Bool.or_assoc]

/-- C9: running any event serializer's call sequence against a sink on
which some write calls fail leaves the destination with the whole sequence
appended exactly once (nothing is retried or rewound) and with the sticky
error state set iff a previous error existed or some emitted call failed --
so a sink write failure is propagated to the caller of the enclosing
record's serialization, which reads it from the sink state. -/
theorem c9_sink_failure_propagation (fails : SinkOp → Bool) (cfg : Config)
    (w : World) (e : Event) (st : SinkState) :
    (runSink fails (logevt_dispatch cfg w e) st).trace =
      st.trace ++ logevt_dispatch cfg w e ∧
    (runSink fails (logevt_dispatch cfg w e) st).err =
      (st.err || (logevt_dispatch cfg w e).any fails) :=
  runSink_spec fails (logevt_dispatch cfg w e) st

/-- A script sub-image carrying a (trusted, valid) signature. -/
def sSig : ImageExec :=
  ImageExec.mk
    { core0 with
      path := "/usr/local/bin/tool.sh"
      codesign := some cs0 } none none

/-- An image-exec event descriptor whose own signature is absent but whose
script sub-image carries one. -/
def ieScriptSig : ImageExec :=
  ImageExec.mk core0 (some sSig) none

/-- C8 counterexample: serializing an image-exec event whose script
sub-image carries a signature encounters no assertion at all on the
object-image path (the run completes) and the produced record contains a
`signature` key, which can only come from the script block since the image
itself is unsigned.  This contradicts the claim that in both renderings
such a state is surfaced via an assertion-style fatal check rather than
producing a record containing script signature fields. -/
theorem c8_counterexample :
    ieScriptSig.core.codesign = none ∧
    (∃ s, ieScriptSig.script = some s ∧ s.core.codesign.isSome) ∧
    (logevt_image_exec_run cfg0 w0 ieScriptSig).isSome = true ∧
    "signature" ∈
      dictKeys ((logevt_image_exec_run cfg0 w0 ieScriptSig).getD []) := by
  refine ⟨by simp [ieScriptSig, core0], ⟨sSig, ?_, ?_⟩, ?_, ?_⟩
  · simp [ieScriptSig]
  · simp [sSig, cs0]
  · have h1 : logevt_image_exec_ok cfg0 ieScriptSig = true := by
      simp [logevt_image_exec_ok, logevt_process_ok, ieScriptSig]
    simp [logevt_image_exec_run, h1]
  · have h1 : logevt_image_exec_ok cfg0 ieScriptSig = true := by
      simp [logevt_image_exec_ok, logevt_process_ok, ieScriptSig]
    have h2 : logevt_image_exec_run cfg0 w0 ieScriptSig =
        some (logevt_image_exec cfg0 w0 ieScriptSig) := by
      simp [logevt_image_exec_run, h1]
    rw [h2]
    simp [logevt_image_exec, ieScriptSig, sSig, core0, cs0,
          logevt_image_exec_image, csOps]

/-- C8 as amended: a script sub-image carrying a signature trips the
assertion in the process-context rendering (`logevt_process_image_exec`,
whose run aborts), while the object-image path has no such check -- the
generic image renderer emits the `signature` key for any descriptor with a
signature attached, including a script rendered through it. -/
theorem c8_script_signature (cfg : Config) (w : World) (ie s : ImageExec)
    (hs : ie.script = some s) (hcs : s.core.codesign.isSome = true) :
    logevt_process_image_exec_run cfg w ie = none ∧
    "signature" ∈ dictKeys (logevt_image_exec_image cfg w s) := by
  constructor
  · simp [logevt_process_image_exec_run, logevt_process_image_exec_ok, hs,
          Option.isNone_iff_eq_none]
    intro hno
    rw [hno] at hcs
    simp at hcs
  · cases hcs' : s.core.codesign with
    | none => rw [hcs'] at hcs; simp at hcs
    | some cs => simp [logevt_image_exec_image, csOps, hcs']

/-- Witness for the amended C8 at concrete inputs. -/
theorem c8_script_signature_witness :
    logevt_process_image_exec_run cfg0 w0 ieScriptSig = none ∧
    "signature" ∈ dictKeys (logevt_image_exec_image cfg0 w0 sSig) :=
  c8_script_signature cfg0 w0 ieScriptSig sSig (by simp [ieScriptSig])
    (by simp [sSig, cs0])
